import Mathlib

/-!
Verification of PDFOptimizer core behaviour.

This file gives a shallow embedding, in Lean 4, of the parts of the
PDFOptimizer code base (src/core) relevant to the checked claims:

* `src/core/config_models.py` — `ConfigProfile` and its operations
  (`add_config`, `remove_config`, `update_config`, `set_default_config`,
  `clear_default`);
* `src/core/utils.py` — the `handle_exception` decorator;
* `src/core/ocr.py` — the per-page retry loop of
  `_process_with_openai_compatible` and the single-shot
  `_process_with_mistral`;
* `src/core/add_bookmark.py` — `add_bookmarks_to_pdf` and
  `batch_add_bookmarks_to_pdfs`;
* `src/core/merger.py`, `src/core/optimizer.py`, `src/core/division.py`,
  `src/core/pdf2img.py` — the file-operation result contract;
* `src/core/config_manager.py` — `ConfigManager.load_configs` and its
  fallback chain.

Python dictionaries returned to callers are modelled as association lists
of `PyVal`; Python exceptions as an explicit `PyExn` value threaded through
`Except`; external effects (file system, subprocess, HTTP) as oracle
parameters describing the outcome of each call site.  Machine details that
none of the checked claims touch (timestamps, float temperatures, actual
bytes of PDFs) are represented only as far as the control flow of the
source inspects them.
-/

/-- A Python value as it appears in the result dictionaries of the core
operations: booleans, strings and non-negative integers. -/
inductive PyVal where
  | pyBool (b : Bool)
  | pyStr (s : String)
  | pyNat (n : Nat)
  deriving DecidableEq, Repr

/-- A Python dict with string keys, as an association list (first binding
wins, mirroring single assignment of each literal key in the source). -/
abbrev PyDict : Type := List (String × PyVal)

/-- `d.get k` — first value bound to `k`, if any. -/
def PyDict.get (d : PyDict) (k : String) : Option PyVal :=
  match d with
  | [] => none
  | (k', v) :: rest => if k' = k then some v else PyDict.get rest k

/-- A raised Python exception, carrying the text `str(e)`; the
constructors distinguish the exception classes that the `except` clauses
of `src/core` dispatch on. -/
inductive PyExn where
  | fnf (msg : String)                  -- FileNotFoundError
  | cpe (stderr : String) (msg : String) -- subprocess.CalledProcessError
  | exn (msg : String)                  -- any other Exception
  deriving DecidableEq, Repr

/-- `str(e)` for a modelled exception. -/
def PyExn.str : PyExn → String
  | .fnf m => m
  | .cpe _ m => m
  | .exn m => m

/-- `handle_exception` from `src/core/utils.py` (lines 13–26): runs the
wrapped body; on any exception `e` it returns
`{"success": False, "message": f"函数 '{funcName}' 执行异常: {str(e)}"}`,
otherwise it passes the body's return value through unchanged. -/
def handle_exception (funcName : String) (body : Except PyExn PyDict) : PyDict :=
  match body with
  | .ok r => r
  | .error e =>
      [("success", .pyBool false),
       ("message", .pyStr ("函数 '" ++ funcName ++ "' 执行异常: " ++ e.str))]

/-! ## `ConfigProfile` (src/core/config_models.py) -/

/-- `APIConfig` restricted to the fields that the `ConfigProfile`
operations read or write: `id`, `name` and `is_default`.  The remaining
fields (provider, api_key, timestamps, …) are never inspected by
`add_config` / `remove_config` / `update_config` / `set_default_config` /
`clear_default` and are omitted. -/
structure APIConfig where
  id : String
  name : String
  is_default : Bool
  deriving DecidableEq, Repr

/-- `ConfigProfile` (config_models.py lines 145–150); `version` is never
consulted by the operations and is omitted. -/
structure ConfigProfile where
  configs : List APIConfig
  active_config_id : Option String
  default_config_id : Option String
  deriving DecidableEq, Repr

/-- The empty profile (`ConfigProfile()` with default fields). -/
def ConfigProfile.empty : ConfigProfile :=
  { configs := [], active_config_id := none, default_config_id := none }

/-- `get_config` (lines 222–227): first config whose `id` matches. -/
def ConfigProfile.get_config (p : ConfigProfile) (config_id : String) :
    Option APIConfig :=
  p.configs.find? (fun c => c.id = config_id)

/-- Helper for the `for c in self.configs: c.is_default = False` loops. -/
def clearFlags (cs : List APIConfig) : List APIConfig :=
  cs.map (fun c => { c with is_default := false })

/-- `add_config` (lines 152–171).  Returns the Python `bool` result
together with the updated profile. -/
def ConfigProfile.add_config (p : ConfigProfile) (config : APIConfig) :
    Bool × ConfigProfile :=
  if p.configs.any (fun c => c.name = config.name) then
    (false, p)
  else
    -- 如果设置为默认，清除其他默认配置
    let (cs, config, defId) :=
      if config.is_default then
        (clearFlags p.configs, config, some config.id)
      else
        (p.configs, config, p.default_config_id)
    -- 如果是第一个配置，设置为激活和默认
    let (config, actId, defId) :=
      if cs.isEmpty then
        ({ config with is_default := true }, some config.id, some config.id)
      else
        (config, p.active_config_id, defId)
    (true, { configs := cs ++ [config],
             active_config_id := actId,
             default_config_id := defId })

/-- Remove the first element equal to `c` (Python `list.remove`); since
`get_config` returns the first config with the matching id and dataclass
equality implies id equality, this removes exactly that element. -/
def removeFirst (cs : List APIConfig) (c : APIConfig) : List APIConfig :=
  match cs with
  | [] => []
  | d :: rest => if d = c then rest else d :: removeFirst rest c

/-- `remove_config` (lines 173–198). -/
def ConfigProfile.remove_config (p : ConfigProfile) (config_id : String) :
    Bool × ConfigProfile :=
  match p.get_config config_id with
  | none => (false, p)
  | some config =>
      let cs := removeFirst p.configs config
      -- `self.get_config(self.default_config_id)` after the removal;
      -- `get_config(None)` finds nothing since ids are strings.
      let defaultLive :=
        match p.default_config_id with
        | some d => (cs.find? (fun c => c.id = d)).isSome
        | none => false
      -- 如果删除的是激活配置，切换到默认配置
      let actId :=
        if p.active_config_id = some config_id then
          if p.default_config_id ≠ some config_id ∧ defaultLive = true then
            p.default_config_id
          else match cs with
            | c :: _ => some c.id
            | [] => none
        else p.active_config_id
      -- 如果删除的是默认配置，设置新的默认配置
      let (cs, defId) :=
        if p.default_config_id = some config_id then
          match cs with
          | c :: rest => ({ c with is_default := true } :: rest, some c.id)
          | [] => ([], none)
        else (cs, p.default_config_id)
      (true, { configs := cs, active_config_id := actId,
               default_config_id := defId })

/-- Replace the first config whose id is `config_id` by `c`
(`self.configs[index] = config` where `index` locates `old_config`). -/
def replaceFirstById (cs : List APIConfig) (config_id : String)
    (c : APIConfig) : List APIConfig :=
  match cs with
  | [] => []
  | d :: rest =>
      if d.id = config_id then c :: rest
      else d :: replaceFirstById rest config_id c

/-- `update_config` (lines 200–220); the `update_timestamp` call touches
a field outside the model. -/
def ConfigProfile.update_config (p : ConfigProfile) (config_id : String)
    (config : APIConfig) : Bool × ConfigProfile :=
  match p.get_config config_id with
  | none => (false, p)
  | some _ =>
      -- 保持ID不变
      let config := { config with id := config_id }
      -- 如果设置为默认，清除其他默认配置
      let (cs, defId) :=
        match config.is_default with
        | true => (clearFlags p.configs, some config_id)
        | false => (p.configs, p.default_config_id)
      (true, { configs := replaceFirstById cs config_id config,
               active_config_id := p.active_config_id,
               default_config_id := defId })

/-- Set `is_default := true` on the first config whose id matches — in
Python `set_default_config` mutates the single object `get_config`
returned, which sits at the first matching position. -/
def setDefaultFirstById (cs : List APIConfig) (config_id : String) :
    List APIConfig :=
  match cs with
  | [] => []
  | c :: rest =>
      if c.id = config_id then { c with is_default := true } :: rest
      else c :: setDefaultFirstById rest config_id

/-- `set_default_config` (lines 258–271). -/
def ConfigProfile.set_default_config (p : ConfigProfile) (config_id : String) :
    Bool × ConfigProfile :=
  match p.get_config config_id with
  | none => (false, p)
  | some _ =>
      (true, { configs := setDefaultFirstById (clearFlags p.configs) config_id,
               active_config_id := p.active_config_id,
               default_config_id := some config_id })

/-- `clear_default` (lines 252–256). -/
def ConfigProfile.clear_default (p : ConfigProfile) : ConfigProfile :=
  { configs := clearFlags p.configs,
    active_config_id := p.active_config_id,
    default_config_id := none }

/-- One call against a `ConfigProfile`, with its arguments. -/
inductive ProfileOp where
  | add (c : APIConfig)
  | remove (config_id : String)
  | update (config_id : String) (c : APIConfig)
  | setDefault (config_id : String)
  | clearDefault
  deriving DecidableEq, Repr

/-- Apply one operation (Boolean results are discarded; the claim is about
the state). -/
def applyOp (p : ConfigProfile) : ProfileOp → ConfigProfile
  | .add c => (p.add_config c).2
  | .remove i => (p.remove_config i).2
  | .update i c => (p.update_config i c).2
  | .setDefault i => (p.set_default_config i).2
  | .clearDefault => p.clear_default

/-- Apply a sequence of operations in order. -/
def applyOps (p : ConfigProfile) : List ProfileOp → ConfigProfile
  | [] => p
  | op :: rest => applyOps (applyOp p op) rest

/-- Number of configs flagged `is_default = True`. -/
def defaultCount (p : ConfigProfile) : Nat :=
  (p.configs.filter (fun c => c.is_default)).length

/-- The claimed invariant: at most one config is flagged default, and
`default_config_id` names every flagged config; whenever configs is
non-empty some config is the default. -/
def profileInvariant (p : ConfigProfile) : Prop :=
  defaultCount p ≤ 1 ∧
  (∀ c ∈ p.configs, c.is_default = true →
      p.default_config_id = some c.id) ∧
  (p.configs ≠ [] → ∃ c ∈ p.configs, c.is_default = true)

instance (p : ConfigProfile) : Decidable (profileInvariant p) := by
  unfold profileInvariant
  infer_instance

/-! ### Invariant lemmas for `ConfigProfile` -/

/-- Number of flagged configs in a list. -/
def countFlags : List APIConfig → Nat
  | [] => 0
  | c :: rest => (if c.is_default = true then 1 else 0) + countFlags rest

/-- The inductive invariant actually maintained by the profile operations
(under fresh ids): config ids are pairwise distinct, at most one config is
flagged default, and `default_config_id` names every flagged config. -/
def stableInvariant (p : ConfigProfile) : Prop :=
  (p.configs.map (fun c => c.id)).Nodup ∧
  countFlags p.configs ≤ 1 ∧
  ∀ c ∈ p.configs, c.is_default = true → p.default_config_id = some c.id

/-- Well-formedness of one call: `add_config` is only invoked with a
config whose id is not already present (ids are fresh uuid4 values in the
application). -/
def WFOp (p : ConfigProfile) : ProfileOp → Prop
  | .add c => c.id ∉ p.configs.map (fun x => x.id)
  | _ => True

/-- Every call of the sequence is well-formed in the state where it runs. -/
def WFSeq : ConfigProfile → List ProfileOp → Prop
  | _, [] => True
  | p, op :: rest => WFOp p op ∧ WFSeq (applyOp p op) rest

instance WFOp.dec (p : ConfigProfile) (op : ProfileOp) :
    Decidable (WFOp p op) :=
  match op with
  | .add c => inferInstanceAs (Decidable (c.id ∉ _))
  | .remove _ => isTrue trivial
  | .update _ _ => isTrue trivial
  | .setDefault _ => isTrue trivial
  | .clearDefault => isTrue trivial

instance WFSeq.dec : (p : ConfigProfile) → (ops : List ProfileOp) →
    Decidable (WFSeq p ops)
  | _, [] => isTrue trivial
  | p, op :: rest =>
      have : Decidable (WFSeq (applyOp p op) rest) := WFSeq.dec _ rest
      inferInstanceAs (Decidable (_ ∧ _))

/-! ## OCR retry loops (src/core/ocr.py) -/

/-- Outcome of one attempted `POST …/chat/completions` call for a page
(ocr.py lines 120–179): a response whose parsed content is `s` (possibly
empty), an `httpx.HTTPStatusError`/`httpx.RequestError`, or any other
exception (e.g. the `ValueError` raised for a missing `choices` field). -/
inductive AttemptOutcome where
  | content (s : String)
  | httpErr (e : String)
  | otherErr (e : String)
  deriving DecidableEq, Repr

/-- `max_retries = 3` (ocr.py line 112). -/
def openaiMaxRetries : Nat := 3

/-- `retry_delay = 2` seconds (ocr.py line 113). -/
def openaiRetryDelay : Nat := 2

/-- State of one page after the retry loop: whether an
`InterruptedError` was raised, how many attempts were started, the
`time.sleep` durations performed between attempts, the final
`api_success` flag and `page_content` string. -/
structure PageRun where
  interrupted : Bool
  attemptsMade : Nat
  sleeps : List Nat
  apiSuccess : Bool
  pageContent : String
  deriving DecidableEq, Repr

/-- The `for attempt in range(max_retries)` loop of
`_process_with_openai_compatible` (ocr.py lines 116–179) for one page.
`fuel` is the number of remaining iterations, `attempt` the index of the
current one (`fuel + attempt` is `max_retries` at the top call), `content`
the current `page_content`, `sleeps` the `time.sleep` calls so far
(accumulated in reverse).  Before each attempt the loop consults
`check_running` and raises `InterruptedError` when it is false; an
attempt that yields empty content retries while `attempt <
max_retries - 1`; an HTTP error retries likewise and produces the
final error text on the last attempt; any other exception breaks out
of the loop at once. -/
def pageAttemptLoopN (pageIdx : Nat) (outcomes : Nat → AttemptOutcome)
    (running : Nat → Bool) :
    Nat → Nat → String → List Nat → PageRun
  | 0, attempt, content, sleeps =>
      { interrupted := false, attemptsMade := attempt,
        sleeps := sleeps.reverse, apiSuccess := false,
        pageContent := content }
  | fuel + 1, attempt, content, sleeps =>
      if running attempt = false then
        { interrupted := true, attemptsMade := attempt,
          sleeps := sleeps.reverse, apiSuccess := false,
          pageContent := content }
      else
        match outcomes attempt with
        | .content s =>
            if s = "" then
              match fuel with
              | f + 1 =>
                  pageAttemptLoopN pageIdx outcomes running (f + 1)
                    (attempt + 1) s (openaiRetryDelay :: sleeps)
              | 0 =>
                  { interrupted := false, attemptsMade := attempt + 1,
                    sleeps := sleeps.reverse, apiSuccess := false,
                    pageContent := s }
            else
              { interrupted := false, attemptsMade := attempt + 1,
                sleeps := sleeps.reverse, apiSuccess := true,
                pageContent := s }
        | .httpErr e =>
            match fuel with
            | f + 1 =>
                pageAttemptLoopN pageIdx outcomes running (f + 1)
                  (attempt + 1) content (openaiRetryDelay :: sleeps)
            | 0 =>
                { interrupted := false, attemptsMade := attempt + 1,
                  sleeps := sleeps.reverse, apiSuccess := false,
                  pageContent := "\n\n--- API返回错误 (页面 " ++
                    toString (pageIdx + 1) ++ "): " ++
                    toString openaiMaxRetries ++ "次尝试后失败 - " ++ e ++
                    " ---\n\n" }
        | .otherErr e =>
            { interrupted := false, attemptsMade := attempt + 1,
              sleeps := sleeps.reverse, apiSuccess := false,
              pageContent := "\n\n--- 处理页面 " ++ toString (pageIdx + 1) ++
                " 时发生未知错误: " ++ e ++ " ---\n\n" }

/-- One page of `_process_with_openai_compatible`: the retry loop
followed by the `if not api_success and not page_content` fix-up
(ocr.py lines 181–184). -/
def runPageAttempts (pageIdx : Nat) (outcomes : Nat → AttemptOutcome)
    (running : Nat → Bool) : PageRun :=
  let r := pageAttemptLoopN pageIdx outcomes running openaiMaxRetries 0 "" []
  if r.interrupted = false ∧ r.apiSuccess = false ∧ r.pageContent = "" then
    { r with pageContent := "\n\n--- 页面 " ++ toString (pageIdx + 1) ++
        ": 所有重试均失败，未能获取OCR内容 ---\n\n" }
  else r

/-- Result of `_process_with_mistral` (ocr.py lines 265–324): how many
`client.ocr.process` requests were issued, the returned markdown string,
and whether the error branch was taken. -/
structure MistralRun where
  requestsMade : Nat
  result : String
  failed : Bool
  deriving DecidableEq, Repr

/-- `_process_with_mistral`: reads and base64-encodes the PDF, then makes
a single `client.ocr.process` request inside one `try`; any exception is
converted to an error markdown fragment and returned — there is no loop
around the request.  `readOutcome` is the outcome of opening/encoding the
file, `callOutcome` that of the API call (`.ok md` carries the joined
per-page markdown). -/
def processWithMistral (readOutcome : Except PyExn Unit)
    (callOutcome : Except PyExn String) : MistralRun :=
  match readOutcome with
  | .error e =>
      { requestsMade := 0,
        result := "\n\n--- 调用 Mistral API 失败: 调用 Mistral API 时发生错误: " ++
          e.str ++ " ---\n\n",
        failed := true }
  | .ok _ =>
      match callOutcome with
      | .ok md => { requestsMade := 1, result := md, failed := false }
      | .error e =>
          { requestsMade := 1,
            result := "\n\n--- 调用 Mistral API 失败: 调用 Mistral API 时发生错误: " ++
              e.str ++ " ---\n\n",
            failed := true }

/-! ## Batch loops and bookmarks (src/core/division.py, add_bookmark.py) -/

/-- Python truthiness for the modelled values. -/
def PyVal.truthy : PyVal → Bool
  | .pyBool b => b
  | .pyStr s => !(s == "")
  | .pyNat n => n != 0

/-- Truthiness of `d.get(k)` (missing key → `None` → falsy). -/
def optTruthy : Option PyVal → Bool
  | none => false
  | some v => v.truthy

/-- `d.get(k, dflt)`. -/
def PyDict.getD (d : PyDict) (k : String) (dflt : PyVal) : PyVal :=
  (PyDict.get d k).getD dflt

/-- One iteration body of `batch_split_pdf` (division.py lines 44–63): the
`file_finished` payload emitted for a file whose `split_pdf` call produced
`outcome` (`.error` for an exception caught by the `except` clause). -/
def splitFileEvent (outcome : Except PyExn PyDict) : PyDict :=
  match outcome with
  | .ok result =>
      if optTruthy (PyDict.get result "success") then
        [("success", PyVal.pyBool true),
         ("message", PyDict.getD result "message" (PyVal.pyStr "分割成功"))]
      else
        [("success", PyVal.pyBool false),
         ("message", PyDict.getD result "message" (PyVal.pyStr "未知错误"))]
  | .error e =>
      [("success", PyVal.pyBool false), ("message", PyVal.pyStr e.str)]

/-- The `for i, file_path in enumerate(files)` loop of `batch_split_pdf`
(division.py lines 41–65) over the file indices `idxs`: before each file
the loop consults `worker_signals["is_running"]()` and breaks when it is
false; otherwise it emits exactly one `file_finished` event for the file.
The `progress` signal emissions carry no result data and are not
modelled. -/
def batchSplitLoop (outcomes : Nat → Except PyExn PyDict)
    (running : Nat → Bool) : List Nat → List (Nat × PyDict)
  | [] => []
  | i :: rest =>
      if running i = false then []
      else (i, splitFileEvent (outcomes i)) ::
        batchSplitLoop outcomes running rest

/-- `batch_split_pdf` over `n` files. -/
def batch_split_pdf (n : Nat) (outcomes : Nat → Except PyExn PyDict)
    (running : Nat → Bool) : List (Nat × PyDict) :=
  batchSplitLoop outcomes running (List.range n)

/-- The page loop of `_process_with_openai_compatible` (ocr.py lines
75–118) reduced to its cancellation structure: before each page the loop
consults `check_running` (line 76) and raises `InterruptedError` when it
is false; each page then runs the retry loop, whose own per-attempt
checks continue the same flag.  `t` is the index of the next flag check;
page content assembly and per-page saving are not consulted by the
cancellation claim and are omitted. -/
def ocrPagesLoop (po : Nat → Nat → AttemptOutcome) (running : Nat → Bool) :
    List Nat → Nat → List (Nat × PageRun) × Bool
  | [], _ => ([], false)
  | i :: rest, t =>
      if running t = false then ([], true)
      else
        let r := pageAttemptLoopN i (po i) (fun a => running (t + 1 + a))
          openaiMaxRetries 0 "" []
        if r.interrupted then ([(i, r)], true)
        else
          let next := ocrPagesLoop po running rest (t + 1 + r.attemptsMade)
          ((i, r) :: next.1, next.2)

/-- `str.strip()`: drop leading and trailing whitespace (executable over
the character list so that concrete instances evaluate in the kernel). -/
def pyStrip (s : String) : String :=
  ⟨((s.data.dropWhile Char.isWhitespace).reverse.dropWhile
      Char.isWhitespace).reverse⟩

/-- A `{page:int, title:str}` bookmark record (`bm.get("page", 0)` and
`bm.get("title", "")` supply these fields, defaulting a missing page to 0
and a missing title to the empty string). -/
structure Bookmark where
  page : Int
  title : String
  deriving DecidableEq, Repr

/-- Result of `add_bookmarks_to_pdf`: the returned dict, whether
`pdf.save(output_path)` completed, and the 0-based page indices used to
look up `pdf.pages`. -/
structure BookmarkResult where
  dict : PyDict
  wroteOutput : Bool
  outlineIndices : List Int
  deriving DecidableEq, Repr

/-- The bookmark filter of add_bookmark.py lines 22–30: skip when the
stripped title is empty or `page <= 0 or page > total_pages`; keep
`{"page": page, "title": stripped title}`. -/
def filterBookmarks (totalPages : Nat) (bookmarks : List Bookmark) :
    List Bookmark :=
  bookmarks.filterMap (fun bm =>
    if pyStrip bm.title = "" then none
    else if bm.page ≤ 0 ∨ (totalPages : Int) < bm.page then none
    else some { page := bm.page, title := pyStrip bm.title })

/-- `add_bookmarks_to_pdf` (add_bookmark.py lines 5–68).  `openOutcome`
is the outcome of `pikepdf.open(input_path)` (`.ok total_pages`),
`makedirsOutcome` of `os.makedirs(...)`, `saveOutcome` of
`pdf.save(output_path)`; any raised exception reaches the function-level
`except` which returns the `添加书签失败` failure dict. -/
def add_bookmarks_to_pdf (bookmarks : List Bookmark)
    (openOutcome : Except PyExn Nat)
    (makedirsOutcome saveOutcome : Except PyExn Unit) : BookmarkResult :=
  if bookmarks.isEmpty then
    { dict := [("success", PyVal.pyBool false),
               ("message", PyVal.pyStr "没有有效的书签数据")],
      wroteOutput := false, outlineIndices := [] }
  else
    match openOutcome with
    | .error e =>
        { dict := [("success", PyVal.pyBool false),
                   ("message", PyVal.pyStr ("添加书签失败: " ++ e.str))],
          wroteOutput := false, outlineIndices := [] }
    | .ok totalPages =>
        let valid := filterBookmarks totalPages bookmarks
        if valid.isEmpty then
          { dict := [("success", PyVal.pyBool false),
                     ("message", PyVal.pyStr "所有书签都无效")],
            wroteOutput := false, outlineIndices := [] }
        else
          -- the outline writes use the 0-based index `bm["page"] - 1`
          let indices := valid.map (fun b => b.page - 1)
          match makedirsOutcome with
          | .error e =>
              { dict := [("success", PyVal.pyBool false),
                         ("message", PyVal.pyStr ("添加书签失败: " ++ e.str))],
                wroteOutput := false, outlineIndices := indices }
          | .ok _ =>
              match saveOutcome with
              | .error e =>
                  { dict := [("success", PyVal.pyBool false),
                             ("message",
                              PyVal.pyStr ("添加书签失败: " ++ e.str))],
                    wroteOutput := false, outlineIndices := indices }
              | .ok _ =>
                  { dict := [("success", PyVal.pyBool true),
                             ("message",
                              PyVal.pyStr ("成功添加 " ++
                                toString valid.length ++ " 个书签")),
                             ("bookmarks_count", PyVal.pyNat valid.length)],
                    wroteOutput := true, outlineIndices := indices }

/-- Per-file data and call-site outcomes for one entry of
`batch_add_bookmarks_to_pdfs` (add_bookmark.py lines 93–118).
`outerExn` is an exception raised by the loop body outside
`add_bookmarks_to_pdf` (which never raises itself). -/
structure BatchBookmarkInput where
  file : String
  bookmarks : List Bookmark
  openOutcome : Except PyExn Nat
  makedirsOutcome : Except PyExn Unit
  saveOutcome : Except PyExn Unit
  outerExn : Option PyExn

/-- The loop body of `batch_add_bookmarks_to_pdfs` for one file:
`outputFor` stands for the
`os.path.join(output_dir, f"{splitext(basename(file))[0]}[已加书签].pdf")`
path derivation, which no claim inspects. -/
def bookmarkFileResult (useCommon : Bool) (common : List Bookmark)
    (outputFor : String → String) (en : BatchBookmarkInput) : PyDict :=
  match en.outerExn with
  | some e =>
      [("success", PyVal.pyBool false),
       ("message",
        PyVal.pyStr ("处理文件 " ++ en.file ++ " 时出错: " ++ e.str)),
       ("file", PyVal.pyStr en.file)]
  | none =>
      -- bookmarks = common_bookmarks if use_common and common_bookmarks
      --             else file_bookmarks[file_path]
      let bms := if useCommon ∧ ¬common.isEmpty then common
                 else en.bookmarks
      let r := add_bookmarks_to_pdf bms en.openOutcome en.makedirsOutcome
        en.saveOutcome
      r.dict ++ ([("file", PyVal.pyStr en.file),
                  ("output", PyVal.pyStr (outputFor en.file))] : PyDict)

/-- `batch_add_bookmarks_to_pdfs`: one result entry appended per input
file, in iteration order; a file whose processing raises is recorded as a
failure entry and the loop continues. -/
def batch_add_bookmarks_to_pdfs (useCommon : Bool) (common : List Bookmark)
    (outputFor : String → String) (entries : List BatchBookmarkInput) :
    List PyDict :=
  entries.map (bookmarkFileResult useCommon common outputFor)

/-- The validity test of the claim, matching the source filter: a
non-empty stripped title and `1 <= page <= total_pages`. -/
def validBookmark (totalPages : Nat) (bm : Bookmark) : Bool :=
  (!(pyStrip bm.title == "")) && decide (1 ≤ bm.page) &&
    decide (bm.page ≤ (totalPages : Int))

/-! ## `ConfigManager.load_configs` (src/core/config_manager.py) -/

/-- The `.env` values consulted by `_migrate_from_old_config`
(config_manager.py lines 227–277).  `tempParseOk` is whether
`float(os.getenv("OCR_TEMPERATURE", "1.0"))` parses (a malformed value
raises `ValueError`, caught by the migration's `except`); the remaining
getenv values feed fields outside the embedded `APIConfig`. -/
structure EnvData where
  provider : String
  apiKey : String
  tempParseOk : Bool
  deriving DecidableEq

/-- State of the config directory as `load_configs` observes it.
`configFile` is `none` when `ocr_configs.json` is missing, otherwise the
outcome of reading + `json.load` + `ConfigProfile.from_dict` (`.error`
for any exception on that path).  `backups` lists the
`ocr_configs_backup_*.json` glob results with each file's parse outcome.
`freshId` is the uuid4 assigned to a migrated config, `renameOutcome`
the outcome of `self.env_file.rename(...)`, `migratedExists` whether
`.env.migrated` already exists (`save_configs` catches its own
exceptions and only returns a Bool, so it cannot abort migration and is
not modelled). -/
structure CfgDirState where
  configFile : Option (Except String ConfigProfile)
  env : Option EnvData
  backups : List (String × Except String ConfigProfile)
  freshId : String
  renameOutcome : Except String Unit
  migratedExists : Bool

/-- `sorted(self.backup_dir.glob("ocr_configs_backup_*.json"))`:
lexicographic sort by file name (the names embed a zero-padded
timestamp, so the last element is the newest backup). -/
def sortBackups (backups : List (String × Except String ConfigProfile)) :
    List (String × Except String ConfigProfile) :=
  backups.insertionSort (fun a b => a.1 ≤ b.1)

/-- `_restore_from_backup` (lines 211–225): read the newest backup if
any; any exception (including a parse failure) falls through to
`return ConfigProfile()`. -/
def restore_from_backup (s : CfgDirState) : ConfigProfile :=
  match (sortBackups s.backups).getLast? with
  | none => ConfigProfile.empty
  | some (_, Except.ok p) => p
  | some (_, Except.error _) => ConfigProfile.empty

/-- `_migrate_from_old_config` (lines 227–277): no `.env` → empty
profile; a `ValueError` from the temperature parse → empty profile (the
`except` clause); an empty api key skips creation and returns the empty
profile; otherwise the migrated config is added to an empty profile via
`add_config`, the profile is saved (`save_configs` swallows its own
errors) and `.env` is renamed — a rename failure is caught by the same
`except` and yields the empty profile. -/
def migrate_from_old_config (s : CfgDirState) : ConfigProfile :=
  match s.env with
  | none => ConfigProfile.empty
  | some env =>
      if env.tempParseOk = false then ConfigProfile.empty
      else if env.apiKey = "" then ConfigProfile.empty
      else
        let profile := (ConfigProfile.empty.add_config
          { id := s.freshId,
            name := "迁移的" ++ env.provider ++ "配置",
            is_default := true }).2
        match s.migratedExists, s.renameOutcome with
        | false, Except.error _ => ConfigProfile.empty
        | _, _ => profile

/-- `load_configs` (lines 34–47): missing file → migration; a read or
parse failure → backup restoration; otherwise the parsed profile. -/
def load_configs (s : CfgDirState) : ConfigProfile :=
  match s.configFile with
  | none => migrate_from_old_config s
  | some (Except.ok p) => p
  | some (Except.error _) => restore_from_backup s

/-! ## Core file operations (merger.py, optimizer.py, division.py,
pdf2img.py) -/

/-- Sequence a list of effect outcomes, propagating the first raised
exception (the `for` loops over pages/files around pikepdf/PyMuPDF
calls). -/
def seqAll : List (Except PyExn Unit) → Except PyExn Unit
  | [] => Except.ok ()
  | o :: rest =>
      match o with
      | Except.error e => Except.error e
      | Except.ok _ => seqAll rest

/-- Body of `merge_pdfs` (merger.py lines 6–29): empty input is refused
with a failure dict; otherwise every input is opened and appended
(`openOutcome` per path) and the merged file saved; the success dict
carries `merged_files_count` and `output_path`. -/
def merge_pdfs_body (input_paths : List String) (output_path : String)
    (openOutcome : String → Except PyExn Unit)
    (saveOutcome : Except PyExn Unit) : Except PyExn PyDict :=
  if input_paths.isEmpty then
    Except.ok [("success", PyVal.pyBool false),
               ("message", PyVal.pyStr "没有选择任何PDF文件进行合并。")]
  else
    match seqAll (input_paths.map openOutcome) with
    | Except.error e => Except.error e
    | Except.ok _ =>
        match saveOutcome with
        | Except.error e => Except.error e
        | Except.ok _ =>
            Except.ok [("success", PyVal.pyBool true),
                       ("merged_files_count",
                        PyVal.pyNat input_paths.length),
                       ("output_path", PyVal.pyStr output_path),
                       ("message", PyVal.pyStr "PDF 合并成功！")]

/-- `merge_pdfs` as called: the body under `@handle_exception`. -/
def merge_pdfs (input_paths : List String) (output_path : String)
    (openOutcome : String → Except PyExn Unit)
    (saveOutcome : Except PyExn Unit) : PyDict :=
  handle_exception "merge_pdfs"
    (merge_pdfs_body input_paths output_path openOutcome saveOutcome)

/-- Body of `split_pdf` (division.py lines 7–36): create the output
directory, open the document (`.ok page_count`), write one single-page
document per page, then report the page count. -/
def split_pdf_body (makedirsOutcome : Except PyExn Unit)
    (openOutcome : Except PyExn Nat)
    (perPage : Nat → Except PyExn Unit) : Except PyExn PyDict :=
  match makedirsOutcome with
  | Except.error e => Except.error e
  | Except.ok _ =>
      match openOutcome with
      | Except.error e => Except.error e
      | Except.ok pageCount =>
          match seqAll ((List.range pageCount).map perPage) with
          | Except.error e => Except.error e
          | Except.ok _ =>
              Except.ok [("success", PyVal.pyBool true),
                         ("message",
                          PyVal.pyStr ("成功将 PDF 分割成 " ++
                            toString pageCount ++ " 个文件！"))]

/-- `split_pdf` under `@handle_exception`. -/
def split_pdf (makedirsOutcome : Except PyExn Unit)
    (openOutcome : Except PyExn Nat)
    (perPage : Nat → Except PyExn Unit) : PyDict :=
  handle_exception "split_pdf"
    (split_pdf_body makedirsOutcome openOutcome perPage)

/-- Body of `convert_pdf_to_images` (pdf2img.py lines 7–44). -/
def convert_pdf_to_images_body (makedirsOutcome : Except PyExn Unit)
    (openOutcome : Except PyExn Nat)
    (perPage : Nat → Except PyExn Unit) : Except PyExn PyDict :=
  match makedirsOutcome with
  | Except.error e => Except.error e
  | Except.ok _ =>
      match openOutcome with
      | Except.error e => Except.error e
      | Except.ok pageCount =>
          match seqAll ((List.range pageCount).map perPage) with
          | Except.error e => Except.error e
          | Except.ok _ =>
              Except.ok [("success", PyVal.pyBool true),
                         ("message",
                          PyVal.pyStr ("成功将 PDF 转换为 " ++
                            toString pageCount ++ " 张图片！"))]

/-- `convert_pdf_to_images` under `@handle_exception`. -/
def convert_pdf_to_images (makedirsOutcome : Except PyExn Unit)
    (openOutcome : Except PyExn Nat)
    (perPage : Nat → Except PyExn Unit) : PyDict :=
  handle_exception "convert_pdf_to_images"
    (convert_pdf_to_images_body makedirsOutcome openOutcome perPage)

/-- `OPTIMIZATION_PRESETS` (optimizer.py lines 11–15). -/
def OPTIMIZATION_PRESETS : List (String × (Nat × Nat)) :=
  [("低质量 (最大压缩)", (96, 75)),
   ("中等质量 (推荐)", (150, 85)),
   ("高质量 (轻度优化)", (225, 95))]

/-- Association-list lookup (`dict[key]`, raising `KeyError`). -/
def lookupPreset (k : String) : List (String × (Nat × Nat)) →
    Option (Nat × Nat)
  | [] => none
  | (k', v) :: rest => if k' = k then some v else lookupPreset k rest

/-- Body of `optimize_pdf` (optimizer.py lines 26–90), inside its own
`try`: the preset lookup (a `KeyError` for an unknown preset is raised
inside the `try`), the PyMuPDF open, the per-page image re-compression,
the two saves, the temp-file removal and the two `os.path.getsize`
calls all happen before the success dict is built. -/
def optimize_pdf_body (quality_preset : String)
    (openOutcome : Except PyExn Nat)
    (imageSteps : Except PyExn Unit)
    (saveSteps : Except PyExn Unit)
    (sizeIn sizeOut : Except PyExn Nat) : Except PyExn PyDict :=
  match lookupPreset quality_preset OPTIMIZATION_PRESETS with
  | none => Except.error (PyExn.exn ("'" ++ quality_preset ++ "'"))
  | some _ =>
      match openOutcome with
      | Except.error e => Except.error e
      | Except.ok _ =>
          match imageSteps with
          | Except.error e => Except.error e
          | Except.ok _ =>
              match saveSteps with
              | Except.error e => Except.error e
              | Except.ok _ =>
                  match sizeIn with
                  | Except.error e => Except.error e
                  | Except.ok a =>
                      match sizeOut with
                      | Except.error e => Except.error e
                      | Except.ok b =>
                          Except.ok
                            [("success", PyVal.pyBool true),
                             ("original_size", PyVal.pyNat a),
                             ("optimized_size", PyVal.pyNat b),
                             ("message", PyVal.pyStr "优化成功！")]

/-- `optimize_pdf`: the body's `except Exception` clause converts any
exception into the `优化失败` failure dict. -/
def optimize_pdf (quality_preset : String)
    (openOutcome : Except PyExn Nat) (imageSteps : Except PyExn Unit)
    (saveSteps : Except PyExn Unit)
    (sizeIn sizeOut : Except PyExn Nat) : PyDict :=
  match optimize_pdf_body quality_preset openOutcome imageSteps saveSteps
      sizeIn sizeOut with
  | Except.ok d => d
  | Except.error e =>
      [("success", PyVal.pyBool false),
       ("message", PyVal.pyStr ("优化失败: " ++ e.str))]

/-- Body of `convert_to_curves_with_ghostscript` (optimizer.py lines
109–144): the `subprocess.run(..., check=True)` call followed by the two
size reads. -/
def convert_to_curves_body (runOutcome : Except PyExn Unit)
    (sizeIn sizeOut : Except PyExn Nat) : Except PyExn PyDict :=
  match runOutcome with
  | Except.error e => Except.error e
  | Except.ok _ =>
      match sizeIn with
      | Except.error e => Except.error e
      | Except.ok a =>
          match sizeOut with
          | Except.error e => Except.error e
          | Except.ok b =>
              Except.ok [("success", PyVal.pyBool true),
                         ("original_size", PyVal.pyNat a),
                         ("optimized_size", PyVal.pyNat b),
                         ("message",
                          PyVal.pyStr "文件转曲成功 (使用 Ghostscript)！")]

/-- `convert_to_curves_with_ghostscript`: the three `except` clauses
(`FileNotFoundError`, `CalledProcessError`, generic) each return their
specific failure dict. -/
def convert_to_curves_with_ghostscript (runOutcome : Except PyExn Unit)
    (sizeIn sizeOut : Except PyExn Nat) : PyDict :=
  match convert_to_curves_body runOutcome sizeIn sizeOut with
  | Except.ok d => d
  | Except.error (PyExn.fnf _) =>
      [("success", PyVal.pyBool false),
       ("message",
        PyVal.pyStr "错误：找不到 Ghostscript。请确保它已安装并已添加到系统环境变量 PATH 中。")]
  | Except.error (PyExn.cpe stderr _) =>
      [("success", PyVal.pyBool false),
       ("message", PyVal.pyStr ("Ghostscript 执行失败: " ++ stderr))]
  | Except.error (PyExn.exn m) =>
      [("success", PyVal.pyBool false),
       ("message", PyVal.pyStr ("发生未知错误: " ++ m))]

/-- The result-dict contract: a boolean `success` and a string
`message`. -/
def hasResultContract (d : PyDict) : Prop :=
  (∃ b, PyDict.get d "success" = some (PyVal.pyBool b)) ∧
  (∃ m, PyDict.get d "message" = some (PyVal.pyStr m))

/-! ## Theorems -/

theorem countFlags_eq_filter (cs : List APIConfig) :
    countFlags cs = (cs.filter (fun c => c.is_default)).length := by
  induction cs with
  | nil => rfl
  | cons c rest ih =>
      by_cases h : c.is_default = true <;>
        simp [countFlags, List.filter_cons, h, ih] <;> omega

theorem defaultCount_eq (p : ConfigProfile) :
    defaultCount p = countFlags p.configs :=
  (countFlags_eq_filter p.configs).symm

theorem clearFlags_map_id (cs : List APIConfig) :
    (clearFlags cs).map (fun c => c.id) = cs.map (fun c => c.id) := by
  induction cs with
  | nil => rfl
  | cons c rest ih =>
      simp only [clearFlags, List.map_cons] at ih ⊢
      rw [ih]

theorem clearFlags_flag (cs : List APIConfig) :
    ∀ c ∈ clearFlags cs, c.is_default = false := by
  intro c hc
  simp only [clearFlags, List.mem_map] at hc
  obtain ⟨d, _, rfl⟩ := hc
  rfl

theorem countFlags_of_all_false :
    ∀ cs : List APIConfig,
      (∀ c ∈ cs, c.is_default = false) → countFlags cs = 0
  | [], _ => rfl
  | c :: rest, h => by
      have hc : c.is_default = false := h c (by simp)
      have hr := countFlags_of_all_false rest
        (fun d hd => h d (List.mem_cons_of_mem c hd))
      simp [countFlags, hc, hr]

theorem clearFlags_countFlags (cs : List APIConfig) :
    countFlags (clearFlags cs) = 0 :=
  countFlags_of_all_false _ (clearFlags_flag cs)

theorem countFlags_append (cs ds : List APIConfig) :
    countFlags (cs ++ ds) = countFlags cs + countFlags ds := by
  induction cs with
  | nil => simp [countFlags]
  | cons c rest ih => simp [countFlags, ih]; omega

theorem countFlags_sublist {cs' cs : List APIConfig}
    (h : cs'.Sublist cs) : countFlags cs' ≤ countFlags cs := by
  induction h with
  | slnil => exact Nat.le_refl _
  | cons d _ ih => simp [countFlags]; omega
  | cons₂ d _ ih => simp [countFlags]; omega

theorem removeFirst_sublist (cs : List APIConfig) (c : APIConfig) :
    (removeFirst cs c).Sublist cs := by
  induction cs with
  | nil => simp [removeFirst]
  | cons d rest ih =>
      by_cases h : d = c
      · simp [removeFirst, h]
      · simpa [removeFirst, h] using ih.cons₂ d

theorem removeFirst_no_id :
    ∀ (cs : List APIConfig) (c : APIConfig),
      (cs.map (fun x => x.id)).Nodup → c ∈ cs →
      ∀ d ∈ removeFirst cs c, d.id ≠ c.id
  | [], c, _, hmem => by simp at hmem
  | e :: rest, c, hnd, hmem => by
      rw [List.map_cons, List.nodup_cons] at hnd
      by_cases he : e = c
      · subst he
        intro d hd hde
        simp only [removeFirst, if_pos rfl] at hd
        exact hnd.1 (by
          rw [← hde]
          exact List.mem_map_of_mem (fun x => x.id) hd)
      · have hcrest : c ∈ rest := by
          rcases List.mem_cons.mp hmem with h | h
          · exact absurd h.symm he
          · exact h
        intro d hd hde
        simp only [removeFirst, if_neg he] at hd
        rcases List.mem_cons.mp hd with h | h
        · have : e.id = c.id := by rw [← h]; exact hde
          exact hnd.1 (by
            rw [this]
            exact List.mem_map_of_mem (fun x => x.id) hcrest)
        · exact removeFirst_no_id rest c hnd.2 hcrest d h hde

theorem replaceFirstById_map_id (cs : List APIConfig) (i : String)
    (c' : APIConfig) (h : c'.id = i) :
    (replaceFirstById cs i c').map (fun c => c.id) =
      cs.map (fun c => c.id) := by
  induction cs with
  | nil => rfl
  | cons d rest ih =>
      by_cases hd : d.id = i
      · simp [replaceFirstById, hd, h]
      · simp [replaceFirstById, hd]
        exact ih

theorem replaceFirstById_mem (cs : List APIConfig) (i : String)
    (c' : APIConfig) :
    ∀ d ∈ replaceFirstById cs i c', d = c' ∨ d ∈ cs := by
  induction cs with
  | nil => intro d hd; simp [replaceFirstById] at hd
  | cons e rest ih =>
      intro d hd
      by_cases he : e.id = i
      · simp only [replaceFirstById, if_pos he] at hd
        rcases List.mem_cons.mp hd with h | h
        · exact Or.inl h
        · exact Or.inr (List.mem_cons_of_mem e h)
      · simp only [replaceFirstById, if_neg he] at hd
        rcases List.mem_cons.mp hd with h | h
        · exact Or.inr (by simp [h])
        · rcases ih d h with h' | h'
          · exact Or.inl h'
          · exact Or.inr (List.mem_cons_of_mem e h')

theorem replaceFirstById_countFlags (cs : List APIConfig) (i : String)
    (c' : APIConfig) :
    countFlags (replaceFirstById cs i c') ≤
      countFlags cs + (if c'.is_default = true then 1 else 0) := by
  induction cs with
  | nil => simp [replaceFirstById, countFlags]
  | cons d rest ih =>
      by_cases hd : d.id = i
      · simp only [replaceFirstById, if_pos hd, countFlags]
        by_cases hc : c'.is_default = true <;>
          by_cases hdf : d.is_default = true <;>
            simp [hc, hdf] <;> omega
      · simp only [replaceFirstById, if_neg hd, countFlags]
        omega

theorem setDefaultFirstById_map_id (cs : List APIConfig) (i : String) :
    (setDefaultFirstById cs i).map (fun c => c.id) =
      cs.map (fun c => c.id) := by
  induction cs with
  | nil => rfl
  | cons d rest ih =>
      by_cases hd : d.id = i
      · simp [setDefaultFirstById, hd]
      · simp [setDefaultFirstById, hd]
        exact ih

theorem setDefaultFirstById_flag :
    ∀ (cs : List APIConfig) (i : String),
      (∀ c ∈ cs, c.is_default = false) →
      ∀ d ∈ setDefaultFirstById cs i, d.is_default = true → d.id = i
  | [], _, _ => by intro d hd; simp [setDefaultFirstById] at hd
  | e :: rest, i, hall => by
      intro d hd hflag
      by_cases he : e.id = i
      · simp only [setDefaultFirstById, if_pos he] at hd
        rcases List.mem_cons.mp hd with h | h
        · rw [h]; simpa using he
        · exact absurd hflag (by simp [hall d (List.mem_cons_of_mem e h)])
      · simp only [setDefaultFirstById, if_neg he] at hd
        rcases List.mem_cons.mp hd with h | h
        · rw [h] at hflag
          exact absurd hflag (by simp [hall e (by simp)])
        · exact setDefaultFirstById_flag rest i
            (fun c hc => hall c (List.mem_cons_of_mem e hc)) d h hflag

theorem setDefaultFirstById_countFlags :
    ∀ (cs : List APIConfig) (i : String),
      (∀ c ∈ cs, c.is_default = false) →
      countFlags (setDefaultFirstById cs i) ≤ 1
  | [], _, _ => by simp [setDefaultFirstById, countFlags]
  | e :: rest, i, hall => by
      by_cases he : e.id = i
      · have h0 := countFlags_of_all_false rest
          (fun c hc => hall c (List.mem_cons_of_mem e hc))
        simp [setDefaultFirstById, he, countFlags, h0]
      · have hef := hall e (by simp)
        have hr := setDefaultFirstById_countFlags rest i
          (fun c hc => hall c (List.mem_cons_of_mem e hc))
        simp [setDefaultFirstById, he, countFlags, hef]
        exact hr

theorem clearFlags_isEmpty (cs : List APIConfig) :
    (clearFlags cs).isEmpty = cs.isEmpty := by
  cases cs <;> rfl

theorem add_preserves (p : ConfigProfile) (c : APIConfig)
    (hinv : stableInvariant p)
    (hwf : c.id ∉ p.configs.map (fun x => x.id)) :
    stableInvariant (p.add_config c).2 := by
  obtain ⟨hnd, hcnt, hflag⟩ := hinv
  by_cases hname : (p.configs.any (fun x => x.name = c.name)) = true
  · simpa [ConfigProfile.add_config, hname] using ⟨hnd, hcnt, hflag⟩
  · by_cases hemp : p.configs = []
    · by_cases hd : c.is_default = true <;>
        simp [ConfigProfile.add_config, hname, hemp, clearFlags,
          stableInvariant, countFlags, hd]
    · have hne : p.configs.isEmpty = false := by
        cases hc : p.configs with
        | nil => exact absurd hc hemp
        | cons a l => rfl
      by_cases hd : c.is_default = true
      · refine ⟨?_, ?_, ?_⟩
        · simp [ConfigProfile.add_config, hname, hd, clearFlags_isEmpty, hne,
            List.nodup_append, clearFlags_map_id]
          exact ⟨hnd, fun x hx hxc => hwf (hxc ▸ List.mem_map_of_mem (fun y => y.id) hx)⟩
        · simp [ConfigProfile.add_config, hname, hd, clearFlags_isEmpty, hne,
            countFlags_append, clearFlags_countFlags, countFlags]
        · intro d hdmem hdflag
          simp [ConfigProfile.add_config, hname, hd, clearFlags_isEmpty,
            hne] at hdmem ⊢
          rcases hdmem with h | h
          · exact absurd hdflag (by simp [clearFlags_flag _ _ h])
          · rw [h]
      · refine ⟨?_, ?_, ?_⟩
        · simp [ConfigProfile.add_config, hname, hd, hne,
            List.nodup_append]
          exact ⟨hnd, fun x hx hxc => hwf (hxc ▸ List.mem_map_of_mem (fun y => y.id) hx)⟩
        · simpa [ConfigProfile.add_config, hname, hd, hne,
            countFlags_append, countFlags] using hcnt
        · intro d hdmem hdflag
          simp [ConfigProfile.add_config, hname, hd, hne] at hdmem ⊢
          rcases hdmem with h | h
          · exact hflag d h hdflag
          · rw [h] at hdflag
            exact absurd hdflag (by simp [hd])

theorem remove_preserves (p : ConfigProfile) (i : String)
    (hinv : stableInvariant p) :
    stableInvariant (p.remove_config i).2 := by
  obtain ⟨hnd, hcnt, hflag⟩ := hinv
  cases hfind : p.get_config i with
  | none =>
      simpa [ConfigProfile.remove_config, hfind] using ⟨hnd, hcnt, hflag⟩
  | some config =>
      have hfind' : p.configs.find? (fun c => decide (c.id = i)) = some config :=
        hfind
      have hmem : config ∈ p.configs := List.mem_of_find?_eq_some hfind'
      have hid : config.id = i := by
        have h := List.find?_some hfind'
        simpa using h
      have hsub := removeFirst_sublist p.configs config
      have hnoid := removeFirst_no_id p.configs config hnd hmem
      by_cases hdef : p.default_config_id = some i
      · have hnof : ∀ d ∈ removeFirst p.configs config,
            d.is_default = false := by
          intro d hd
          by_contra hdt
          rw [Bool.not_eq_false] at hdt
          have h1 := hflag d (hsub.subset hd) hdt
          rw [hdef] at h1
          exact hnoid d hd (by
            rw [hid]
            exact (Option.some_injective _ h1.symm))
        cases hcs : removeFirst p.configs config with
        | nil =>
            simp [ConfigProfile.remove_config, hfind, hdef, hcs,
              stableInvariant, countFlags]
        | cons c rest =>
            have hcrest_sub : (c :: rest).Sublist p.configs := hcs ▸ hsub
            have hnd' : ((c :: rest).map (fun x => x.id)).Nodup :=
              (hcrest_sub.map (fun x => x.id)).nodup hnd
            have hrest_false : ∀ d ∈ rest, d.is_default = false := by
              intro d hd
              exact hnof d (by rw [hcs]; exact List.mem_cons_of_mem c hd)
            refine ⟨?_, ?_, ?_⟩
            · simpa [ConfigProfile.remove_config, hfind, hdef, hcs]
                using hnd'
            · simp [ConfigProfile.remove_config, hfind, hdef, hcs,
                countFlags, countFlags_of_all_false rest hrest_false]
            · intro d hdmem hdflag
              simp only [ConfigProfile.remove_config, hfind, hdef, hcs,
                if_pos rfl] at hdmem ⊢
              simp at hdmem
              rcases hdmem with h | h
              · rw [h, if_pos trivial]
              · rw [hrest_false d h] at hdflag
                exact absurd hdflag (by simp)
      · refine ⟨?_, ?_, ?_⟩
        · simpa [ConfigProfile.remove_config, hfind, hdef]
            using (hsub.map (fun x => x.id)).nodup hnd
        · simpa [ConfigProfile.remove_config, hfind, hdef]
            using le_trans (countFlags_sublist hsub) hcnt
        · intro d hdmem hdflag
          simp only [ConfigProfile.remove_config, hfind, hdef] at hdmem ⊢
          simp [hdef] at hdmem
          exact hflag d (hsub.subset hdmem) hdflag

theorem update_preserves (p : ConfigProfile) (i : String)
    (config : APIConfig) (hinv : stableInvariant p) :
    stableInvariant (p.update_config i config).2 := by
  obtain ⟨hnd, hcnt, hflag⟩ := hinv
  cases hfind : p.get_config i with
  | none =>
      simpa [ConfigProfile.update_config, hfind] using ⟨hnd, hcnt, hflag⟩
  | some old =>
      cases hd : config.is_default with
      | true =>
          refine ⟨?_, ?_, ?_⟩
          · simp only [ConfigProfile.update_config, hfind, hd]
            rw [replaceFirstById_map_id (clearFlags p.configs) i
              ⟨i, config.name, true⟩ rfl, clearFlags_map_id]
            exact hnd
          · simp only [ConfigProfile.update_config, hfind, hd]
            have h1 := replaceFirstById_countFlags (clearFlags p.configs) i
              ⟨i, config.name, true⟩
            simp [clearFlags_countFlags] at h1
            exact h1
          · intro d hdmem hdflag
            simp only [ConfigProfile.update_config, hfind, hd] at hdmem ⊢
            rcases replaceFirstById_mem _ _ _ d hdmem with h | h
            · rw [h]
            · rw [clearFlags_flag _ _ h] at hdflag
              exact absurd hdflag (by simp)
      | false =>
          refine ⟨?_, ?_, ?_⟩
          · simp only [ConfigProfile.update_config, hfind, hd]
            rw [replaceFirstById_map_id p.configs i
              ⟨i, config.name, false⟩ rfl]
            exact hnd
          · simp only [ConfigProfile.update_config, hfind, hd]
            have h1 := replaceFirstById_countFlags p.configs i
              ⟨i, config.name, false⟩
            simp at h1
            exact le_trans h1 hcnt
          · intro d hdmem hdflag
            simp only [ConfigProfile.update_config, hfind, hd] at hdmem ⊢
            rcases replaceFirstById_mem _ _ _ d hdmem with h | h
            · rw [h] at hdflag
              simp at hdflag
            · exact hflag d h hdflag

theorem setDefault_preserves (p : ConfigProfile) (i : String)
    (hinv : stableInvariant p) :
    stableInvariant (p.set_default_config i).2 := by
  obtain ⟨hnd, hcnt, hflag⟩ := hinv
  cases hfind : p.get_config i with
  | none =>
      simpa [ConfigProfile.set_default_config, hfind]
        using ⟨hnd, hcnt, hflag⟩
  | some old =>
      refine ⟨?_, ?_, ?_⟩
      · simpa [ConfigProfile.set_default_config, hfind,
          setDefaultFirstById_map_id, clearFlags_map_id] using hnd
      · simpa [ConfigProfile.set_default_config, hfind] using
          setDefaultFirstById_countFlags (clearFlags p.configs) i
            (clearFlags_flag p.configs)
      · intro d hdmem hdflag
        simp only [ConfigProfile.set_default_config, hfind] at hdmem ⊢
        have := setDefaultFirstById_flag (clearFlags p.configs) i
          (clearFlags_flag p.configs) d hdmem hdflag
        rw [this]

theorem clearDefault_preserves (p : ConfigProfile)
    (hinv : stableInvariant p) :
    stableInvariant p.clear_default := by
  obtain ⟨hnd, _, _⟩ := hinv
  refine ⟨?_, ?_, ?_⟩
  · simpa [ConfigProfile.clear_default, clearFlags_map_id] using hnd
  · simp [ConfigProfile.clear_default, clearFlags_countFlags]
  · intro d hd hflag
    have hfalse := clearFlags_flag p.configs d
      (by simpa [ConfigProfile.clear_default] using hd)
    rw [hfalse] at hflag
    exact absurd hflag (by simp)

theorem step_preserves (p : ConfigProfile) (op : ProfileOp)
    (hinv : stableInvariant p) (hwf : WFOp p op) :
    stableInvariant (applyOp p op) := by
  cases op with
  | add c => exact add_preserves p c hinv hwf
  | remove i => exact remove_preserves p i hinv
  | update i c => exact update_preserves p i c hinv
  | setDefault i => exact setDefault_preserves p i hinv
  | clearDefault => exact clearDefault_preserves p hinv

theorem seq_preserves :
    ∀ (ops : List ProfileOp) (p : ConfigProfile),
      stableInvariant p → WFSeq p ops →
      stableInvariant (applyOps p ops)
  | [], _, h, _ => h
  | op :: rest, p, h, hwf =>
      seq_preserves rest _ (step_preserves p op h hwf.1) hwf.2

theorem empty_invariant : stableInvariant ConfigProfile.empty := by
  refine ⟨?_, ?_, ?_⟩ <;> simp [ConfigProfile.empty, countFlags]

/-- C1 counterexample: starting from the empty profile, `add_config`
followed by `clear_default` leaves a non-empty `configs` list in which no
config has `is_default = True`, so the claimed invariant (which requires a
default whenever `configs` is non-empty) is violated. -/
theorem configProfile_invariant_counterexample :
    ¬ profileInvariant
        (applyOps ConfigProfile.empty
          [ProfileOp.add ⟨"c1", "a", false⟩, ProfileOp.clearDefault]) := by
  decide

/-- C1 (amended): for every sequence of `add_config`, `remove_config`,
`update_config`, `set_default_config` and `clear_default` calls starting
from the empty profile, in which each added config's id is not already
present (ids are fresh uuid4 strings in the application), the profile
satisfies: at most one config has `is_default = True`, and every config
flagged default has its id equal to `default_config_id`.  The original
claim's further requirement that a default exists whenever `configs` is
non-empty does not hold (see the counterexample): `clear_default` clears
the flags of a non-empty profile, and `update_config` with
`is_default = False` on the current default does the same. -/
theorem configProfile_amended_invariant (ops : List ProfileOp)
    (hwf : WFSeq ConfigProfile.empty ops) :
    defaultCount (applyOps ConfigProfile.empty ops) ≤ 1 ∧
    ∀ c ∈ (applyOps ConfigProfile.empty ops).configs,
      c.is_default = true →
      (applyOps ConfigProfile.empty ops).default_config_id = some c.id := by
  have h := seq_preserves ops ConfigProfile.empty empty_invariant hwf
  exact ⟨(defaultCount_eq _) ▸ h.2.1, h.2.2⟩

/-- Witness for the amended C1 theorem at a concrete call sequence. -/
theorem configProfile_amended_invariant_witness :
    WFSeq ConfigProfile.empty
        [ProfileOp.add ⟨"c1", "a", false⟩, ProfileOp.add ⟨"c2", "b", true⟩,
         ProfileOp.setDefault "c1", ProfileOp.remove "c2",
         ProfileOp.clearDefault] ∧
    (defaultCount (applyOps ConfigProfile.empty
        [ProfileOp.add ⟨"c1", "a", false⟩, ProfileOp.add ⟨"c2", "b", true⟩,
         ProfileOp.setDefault "c1", ProfileOp.remove "c2",
         ProfileOp.clearDefault]) ≤ 1 ∧
      ∀ c ∈ (applyOps ConfigProfile.empty
        [ProfileOp.add ⟨"c1", "a", false⟩, ProfileOp.add ⟨"c2", "b", true⟩,
         ProfileOp.setDefault "c1", ProfileOp.remove "c2",
         ProfileOp.clearDefault]).configs,
        c.is_default = true →
        (applyOps ConfigProfile.empty
          [ProfileOp.add ⟨"c1", "a", false⟩, ProfileOp.add ⟨"c2", "b", true⟩,
           ProfileOp.setDefault "c1", ProfileOp.remove "c2",
           ProfileOp.clearDefault]).default_config_id = some c.id) :=
  ⟨by decide, configProfile_amended_invariant _ (by decide)⟩

/-- C9: `add_config` is atomic with respect to name uniqueness.  When some
existing config already bears the incoming name, it returns `False` and
leaves the whole profile unchanged; otherwise it returns `True`, and when
the profile was empty the added config is stored with `is_default = True`
(whatever its incoming flag) and becomes both the active and the default
config. -/
theorem add_config_atomic (p : ConfigProfile) (c : APIConfig) :
    (p.configs.any (fun x => x.name = c.name) = true →
      p.add_config c = (false, p)) ∧
    (p.configs.any (fun x => x.name = c.name) = false →
      (p.add_config c).1 = true ∧
      (p.configs = [] →
        (p.add_config c).2.configs = [{ c with is_default := true }] ∧
        (p.add_config c).2.active_config_id = some c.id ∧
        (p.add_config c).2.default_config_id = some c.id)) := by
  constructor
  · intro h
    simp [ConfigProfile.add_config, h]
  · intro h
    constructor
    · cases hd : c.is_default <;>
        simp [ConfigProfile.add_config, h, hd] <;>
          by_cases hemp : p.configs.isEmpty <;> simp [hemp]
    · intro hemp
      cases hd : c.is_default <;>
        simp [ConfigProfile.add_config, h, hd, hemp, clearFlags]

/-- Witness for C9: both branches exercised at concrete profiles. -/
theorem add_config_atomic_witness :
    (({ configs := [⟨"c1", "a", true⟩], active_config_id := some "c1",
        default_config_id := some "c1" } : ConfigProfile).configs.any
          (fun x => x.name = "a") = true →
      ({ configs := [⟨"c1", "a", true⟩], active_config_id := some "c1",
         default_config_id := some "c1" } : ConfigProfile).add_config
          ⟨"c2", "a", false⟩ =
        (false, { configs := [⟨"c1", "a", true⟩],
                  active_config_id := some "c1",
                  default_config_id := some "c1" })) ∧
    (ConfigProfile.empty.configs.any (fun x => x.name = "b") = false →
      (ConfigProfile.empty.add_config ⟨"c3", "b", false⟩).1 = true ∧
      (ConfigProfile.empty.configs = [] →
        (ConfigProfile.empty.add_config ⟨"c3", "b", false⟩).2.configs =
          [⟨"c3", "b", true⟩] ∧
        (ConfigProfile.empty.add_config
          ⟨"c3", "b", false⟩).2.active_config_id = some "c3" ∧
        (ConfigProfile.empty.add_config
          ⟨"c3", "b", false⟩).2.default_config_id = some "c3")) :=
  ⟨(add_config_atomic _ ⟨"c2", "a", false⟩).1,
   (add_config_atomic _ ⟨"c3", "b", false⟩).2⟩

/-- A string with a non-empty suffix is non-empty (used to evaluate the
`if not page_content` truthiness test on formatted error messages). -/
theorem append_ne_empty_right (a b : String) (h : ¬ b = "") :
    ¬ (a ++ b) = "" := by
  intro hc
  have h1 : (a ++ b).length = 0 := by rw [hc]; rfl
  rw [String.length_append] at h1
  have h2 : b.length = 0 := by omega
  cases b with
  | mk l =>
      cases l with
      | nil => exact h rfl
      | cons x xs => simp [String.length] at h2

/-- C3: in the OpenAI-compatible OCR path, for one page and an
uncancelled run, the API call is attempted at least once and at most 3
times; every delay performed between consecutive attempts is the fixed
2-second `retry_delay` and there are exactly `attempts - 1` of them; an
attempt that returns empty content on a non-final attempt triggers a
further attempt; and the loop ends in success exactly when the last
attempt made returned non-empty content. -/
theorem openai_retry_policy (i : Nat) (outcomes : Nat → AttemptOutcome) :
    (runPageAttempts i outcomes (fun _ => true)).interrupted = false ∧
    1 ≤ (runPageAttempts i outcomes (fun _ => true)).attemptsMade ∧
    (runPageAttempts i outcomes (fun _ => true)).attemptsMade ≤
      openaiMaxRetries ∧
    (runPageAttempts i outcomes (fun _ => true)).sleeps =
      List.replicate
        ((runPageAttempts i outcomes (fun _ => true)).attemptsMade - 1)
        openaiRetryDelay ∧
    (outcomes 0 = AttemptOutcome.content "" →
      2 ≤ (runPageAttempts i outcomes (fun _ => true)).attemptsMade) ∧
    (outcomes 1 = AttemptOutcome.content "" →
      2 ≤ (runPageAttempts i outcomes (fun _ => true)).attemptsMade →
      (runPageAttempts i outcomes (fun _ => true)).attemptsMade = 3) ∧
    ((runPageAttempts i outcomes (fun _ => true)).apiSuccess = true ↔
      ∃ s, outcomes
          ((runPageAttempts i outcomes (fun _ => true)).attemptsMade - 1) =
          AttemptOutcome.content s ∧ s ≠ "") := by
  rcases h0 : outcomes 0 with s0 | e0 | e0
  · by_cases hs0 : s0 = ""
    · subst hs0
      rcases h1 : outcomes 1 with s1 | e1 | e1
      · by_cases hs1 : s1 = ""
        · subst hs1
          rcases h2 : outcomes 2 with s2 | e2 | e2
          · by_cases hs2 : s2 = ""
            · subst hs2
              simp [runPageAttempts, pageAttemptLoopN, openaiMaxRetries,
                openaiRetryDelay, h0, h1, h2, List.replicate, append_ne_empty_right]
            · simp [runPageAttempts, pageAttemptLoopN, openaiMaxRetries,
                openaiRetryDelay, h0, h1, h2, hs2, List.replicate, append_ne_empty_right]
          · simp [runPageAttempts, pageAttemptLoopN, openaiMaxRetries,
              openaiRetryDelay, h0, h1, h2, List.replicate, append_ne_empty_right]
          · simp [runPageAttempts, pageAttemptLoopN, openaiMaxRetries,
              openaiRetryDelay, h0, h1, h2, List.replicate, append_ne_empty_right]
        · simp [runPageAttempts, pageAttemptLoopN, openaiMaxRetries,
            openaiRetryDelay, h0, h1, hs1, List.replicate, append_ne_empty_right]
      · rcases h2 : outcomes 2 with s2 | e2 | e2
        · by_cases hs2 : s2 = ""
          · subst hs2
            simp [runPageAttempts, pageAttemptLoopN, openaiMaxRetries,
              openaiRetryDelay, h0, h1, h2, List.replicate, append_ne_empty_right]
          · simp [runPageAttempts, pageAttemptLoopN, openaiMaxRetries,
              openaiRetryDelay, h0, h1, h2, hs2, List.replicate, append_ne_empty_right]
        · simp [runPageAttempts, pageAttemptLoopN, openaiMaxRetries,
            openaiRetryDelay, h0, h1, h2, List.replicate, append_ne_empty_right]
        · simp [runPageAttempts, pageAttemptLoopN, openaiMaxRetries,
            openaiRetryDelay, h0, h1, h2, List.replicate, append_ne_empty_right]
      · simp [runPageAttempts, pageAttemptLoopN, openaiMaxRetries,
          openaiRetryDelay, h0, h1, List.replicate, append_ne_empty_right]
    · simp [runPageAttempts, pageAttemptLoopN, openaiMaxRetries,
        openaiRetryDelay, h0, hs0, List.replicate, append_ne_empty_right]
  · rcases h1 : outcomes 1 with s1 | e1 | e1
    · by_cases hs1 : s1 = ""
      · subst hs1
        rcases h2 : outcomes 2 with s2 | e2 | e2
        · by_cases hs2 : s2 = ""
          · subst hs2
            simp [runPageAttempts, pageAttemptLoopN, openaiMaxRetries,
              openaiRetryDelay, h0, h1, h2, List.replicate, append_ne_empty_right]
          · simp [runPageAttempts, pageAttemptLoopN, openaiMaxRetries,
              openaiRetryDelay, h0, h1, h2, hs2, List.replicate, append_ne_empty_right]
        · simp [runPageAttempts, pageAttemptLoopN, openaiMaxRetries,
            openaiRetryDelay, h0, h1, h2, List.replicate, append_ne_empty_right]
        · simp [runPageAttempts, pageAttemptLoopN, openaiMaxRetries,
            openaiRetryDelay, h0, h1, h2, List.replicate, append_ne_empty_right]
      · simp [runPageAttempts, pageAttemptLoopN, openaiMaxRetries,
          openaiRetryDelay, h0, h1, hs1, List.replicate, append_ne_empty_right]
    · rcases h2 : outcomes 2 with s2 | e2 | e2
      · by_cases hs2 : s2 = ""
        · subst hs2
          simp [runPageAttempts, pageAttemptLoopN, openaiMaxRetries,
            openaiRetryDelay, h0, h1, h2, List.replicate, append_ne_empty_right]
        · simp [runPageAttempts, pageAttemptLoopN, openaiMaxRetries,
            openaiRetryDelay, h0, h1, h2, hs2, List.replicate, append_ne_empty_right]
      · simp [runPageAttempts, pageAttemptLoopN, openaiMaxRetries,
          openaiRetryDelay, h0, h1, h2, List.replicate, append_ne_empty_right]
      · simp [runPageAttempts, pageAttemptLoopN, openaiMaxRetries,
          openaiRetryDelay, h0, h1, h2, List.replicate, append_ne_empty_right]
    · simp [runPageAttempts, pageAttemptLoopN, openaiMaxRetries,
        openaiRetryDelay, h0, h1, List.replicate, append_ne_empty_right]
  · simp [runPageAttempts, pageAttemptLoopN, openaiMaxRetries,
      openaiRetryDelay, h0, List.replicate, append_ne_empty_right]

/-- Witness for C3 at a concrete outcome table: empty content on the
first two attempts, then success. -/
theorem openai_retry_policy_witness :
    2 ≤ (runPageAttempts 0
      (fun k => if k ≤ 1 then AttemptOutcome.content ""
                else AttemptOutcome.content "ok")
      (fun _ => true)).attemptsMade ∧
    (runPageAttempts 0
      (fun k => if k ≤ 1 then AttemptOutcome.content ""
                else AttemptOutcome.content "ok")
      (fun _ => true)).attemptsMade = 3 ∧
    ((runPageAttempts 0
      (fun k => if k ≤ 1 then AttemptOutcome.content ""
                else AttemptOutcome.content "ok")
      (fun _ => true)).apiSuccess = true ↔
      ∃ s, (fun k => if k ≤ 1 then AttemptOutcome.content ""
                     else AttemptOutcome.content "ok")
          ((runPageAttempts 0
            (fun k => if k ≤ 1 then AttemptOutcome.content ""
                      else AttemptOutcome.content "ok")
            (fun _ => true)).attemptsMade - 1) =
        AttemptOutcome.content s ∧ s ≠ "") := by
  refine ⟨(openai_retry_policy 0 _).2.2.2.2.1 (by decide), ?_,
    (openai_retry_policy 0 _).2.2.2.2.2.2⟩
  exact (openai_retry_policy 0 _).2.2.2.2.2.1 (by decide)
    ((openai_retry_policy 0 _).2.2.2.2.1 (by decide))

/-- Upper bound on the attempts the per-page loop can start: at most
`fuel` beyond the entry attempt index. -/
theorem pageAttemptLoopN_le (i : Nat) (outcomes : Nat → AttemptOutcome)
    (running : Nat → Bool) (fuel : Nat) :
    ∀ (a : Nat) (c : String) (s : List Nat),
      (pageAttemptLoopN i outcomes running fuel a c s).attemptsMade ≤
        a + fuel := by
  induction fuel with
  | zero => intro a c s; exact Nat.le_refl a
  | succ f ih =>
      intro a c s
      rw [pageAttemptLoopN]
      by_cases hr : running a = false
      · rw [if_pos hr]
        simp
      · rw [if_neg hr]
        cases ho : outcomes a with
        | content str =>
            simp only []
            by_cases hs : str = ""
            · subst hs
              rw [if_pos rfl]
              cases f with
              | zero => simp
              | succ g =>
                  exact Nat.le_trans (ih (a + 1) "" (openaiRetryDelay :: s))
                    (by omega)
            · rw [if_neg hs]
              simp
        | httpErr e =>
            simp only []
            cases f with
            | zero => simp
            | succ g =>
                exact Nat.le_trans (ih (a + 1) c (openaiRetryDelay :: s))
                  (by omega)
        | otherErr e => simp [pageAttemptLoopN]

/-- The post-loop fix-up keeps the attempt count of the retry loop. -/
theorem runPageAttempts_attempts (i : Nat) (outcomes : Nat → AttemptOutcome)
    (running : Nat → Bool) :
    (runPageAttempts i outcomes running).attemptsMade =
      (pageAttemptLoopN i outcomes running openaiMaxRetries 0 ""
        []).attemptsMade := by
  unfold runPageAttempts
  simp only []
  split <;> rfl

/-- Whatever happens, at most `max_retries = 3` attempts start. -/
theorem runPageAttempts_le (i : Nat) (outcomes : Nat → AttemptOutcome)
    (running : Nat → Bool) :
    (runPageAttempts i outcomes running).attemptsMade ≤ openaiMaxRetries := by
  rw [runPageAttempts_attempts]
  exact pageAttemptLoopN_le i outcomes running openaiMaxRetries 0 "" []

/-- C4 counterexample: when the single `client.ocr.process` request of
`_process_with_mistral` fails, the function reports failure after exactly
one request — it does not retry the whole-document request at all, so the
claimed "retries … up to a fixed bound before reporting failure" is false
for the Mistral client. -/
theorem mistral_no_retry_counterexample :
    (processWithMistral (Except.ok ())
      (Except.error (PyExn.exn "connection reset"))).requestsMade = 1 ∧
    (processWithMistral (Except.ok ())
      (Except.error (PyExn.exn "connection reset"))).failed = true :=
  ⟨rfl, rfl⟩

/-- C4 (amended): the OpenAI-compatible client retries each per-page
request up to the fixed bound of 3 attempts; the Mistral client issues
its whole-document request at most once — a failing call is converted to
an error result immediately, with no retry. -/
theorem ocr_request_bounds (i : Nat) (outcomes : Nat → AttemptOutcome)
    (readOutcome : Except PyExn Unit) (callOutcome : Except PyExn String) :
    (runPageAttempts i outcomes (fun _ => true)).attemptsMade ≤
      openaiMaxRetries ∧
    (processWithMistral readOutcome callOutcome).requestsMade ≤ 1 ∧
    (∀ e, callOutcome = Except.error e → readOutcome = Except.ok () →
      (processWithMistral readOutcome callOutcome).failed = true ∧
      (processWithMistral readOutcome callOutcome).requestsMade = 1) := by
  refine ⟨runPageAttempts_le i outcomes (fun _ => true), ?_, ?_⟩
  · cases readOutcome with
    | error e => exact Nat.zero_le 1
    | ok u => cases callOutcome <;> exact Nat.le_refl 1
  · intro e hc hr
    subst hc
    subst hr
    exact ⟨rfl, rfl⟩

/-- Witness for the amended C4 theorem: a persistent-failure oracle. -/
theorem ocr_request_bounds_witness :
    (runPageAttempts 0 (fun _ => AttemptOutcome.httpErr "timeout")
      (fun _ => true)).attemptsMade ≤ openaiMaxRetries ∧
    (processWithMistral (Except.ok ())
      (Except.error (PyExn.exn "timeout"))).requestsMade ≤ 1 ∧
    ((processWithMistral (Except.ok ())
      (Except.error (PyExn.exn "timeout"))).failed = true ∧
     (processWithMistral (Except.ok ())
      (Except.error (PyExn.exn "timeout"))).requestsMade = 1) :=
  ⟨(ocr_request_bounds 0 (fun _ => AttemptOutcome.httpErr "timeout")
      (Except.ok ()) (Except.error (PyExn.exn "timeout"))).1,
   (ocr_request_bounds 0 (fun _ => AttemptOutcome.httpErr "timeout")
      (Except.ok ()) (Except.error (PyExn.exn "timeout"))).2.1,
   (ocr_request_bounds 0 (fun _ => AttemptOutcome.httpErr "timeout")
      (Except.ok ()) (Except.error (PyExn.exn "timeout"))).2.2
        (PyExn.exn "timeout") rfl rfl⟩

/-- C2 counterexample: wrapping a body that raises an exception with
`str(e) = "boom"` under a function named `merge_pdfs`: the returned
`message` is the formatted log line, not `str(e)` itself. -/
theorem handle_exception_message_counterexample :
    (handle_exception "merge_pdfs"
      (Except.error (PyExn.exn "boom"))).get "message" =
      some (PyVal.pyStr "函数 'merge_pdfs' 执行异常: boom") ∧
    (handle_exception "merge_pdfs"
      (Except.error (PyExn.exn "boom"))).get "message" ≠
      some (PyVal.pyStr "boom") := by
  refine ⟨rfl, ?_⟩
  decide

/-- C2 (amended): for every wrapped operation and raised exception `e`,
`handle_exception` returns exactly
`{success: False, message: "函数 '<name>' 执行异常: " + str(e)}` — the
message embeds `str(e)` as a suffix of the log line rather than equalling
it — and when the body does not raise, its result is returned
unchanged. -/
theorem handle_exception_behavior (name : String)
    (body : Except PyExn PyDict) :
    (∀ e, body = Except.error e →
      handle_exception name body =
        [("success", PyVal.pyBool false),
         ("message",
          PyVal.pyStr ("函数 '" ++ name ++ "' 执行异常: " ++ e.str))]) ∧
    (∀ r, body = Except.ok r → handle_exception name body = r) := by
  constructor
  · intro e h
    subst h
    rfl
  · intro r h
    subst h
    rfl

/-- Witness for the amended C2 theorem: both branches at concrete data. -/
theorem handle_exception_behavior_witness :
    (handle_exception "split_pdf" (Except.error (PyExn.exn "oops")) =
      [("success", PyVal.pyBool false),
       ("message", PyVal.pyStr ("函数 '" ++ "split_pdf" ++ "' 执行异常: " ++
         (PyExn.exn "oops").str))]) ∧
    (handle_exception "split_pdf"
      (Except.ok [("success", PyVal.pyBool true)]) =
      [("success", PyVal.pyBool true)]) :=
  ⟨(handle_exception_behavior "split_pdf"
      (Except.error (PyExn.exn "oops"))).1 (PyExn.exn "oops") rfl,
   (handle_exception_behavior "split_pdf"
      (Except.ok [("success", PyVal.pyBool true)])).2
      [("success", PyVal.pyBool true)] rfl⟩

/-- The source's skip conditions keep exactly the records satisfying
`validBookmark`, each with its title stripped. -/
theorem filterBookmarks_eq (totalPages : Nat) (bookmarks : List Bookmark) :
    filterBookmarks totalPages bookmarks =
      (bookmarks.filter (validBookmark totalPages)).map
        (fun bm => { page := bm.page, title := pyStrip bm.title }) := by
  induction bookmarks with
  | nil => rfl
  | cons bm rest ih =>
      by_cases h1 : pyStrip bm.title = ""
      · simp [filterBookmarks, List.filterMap_cons, List.filter_cons, h1,
          validBookmark] at ih ⊢
        exact ih
      · by_cases h2 : bm.page ≤ 0 ∨ (totalPages : Int) < bm.page
        · have hpred : validBookmark totalPages bm = false := by
            simp [validBookmark, h1]
            omega
          simp [filterBookmarks, List.filterMap_cons, List.filter_cons, h1,
            h2, hpred] at ih ⊢
          exact ih
        · have hpred : validBookmark totalPages bm = true := by
            simp [validBookmark, h1]
            omega
          simp [filterBookmarks, List.filterMap_cons, List.filter_cons, h1,
            h2, hpred] at ih ⊢
          exact ih

/-- C5: `add_bookmarks_to_pdf` validates against the page count before
writing.  With a successfully opened PDF of `totalPages` pages: every
0-based index used to look up `pdf.pages` lies in `[0, totalPages)`;
when no record passes the filter (non-empty stripped title and
`1 ≤ page ≤ totalPages`) the function fails without writing the output
file; and on the write path exactly the valid records are written, with
the reported `bookmarks_count` equal to their number. -/
theorem add_bookmarks_validation (totalPages : Nat)
    (bookmarks : List Bookmark) (mk sv : Except PyExn Unit) :
    (∀ idx ∈ (add_bookmarks_to_pdf bookmarks (Except.ok totalPages)
        mk sv).outlineIndices, 0 ≤ idx ∧ idx < (totalPages : Int)) ∧
    (bookmarks.filter (validBookmark totalPages) = [] →
      PyDict.get (add_bookmarks_to_pdf bookmarks (Except.ok totalPages)
          mk sv).dict "success" = some (PyVal.pyBool false) ∧
      (add_bookmarks_to_pdf bookmarks (Except.ok totalPages)
          mk sv).wroteOutput = false) ∧
    (mk = Except.ok () → sv = Except.ok () →
      bookmarks.filter (validBookmark totalPages) ≠ [] →
      (add_bookmarks_to_pdf bookmarks (Except.ok totalPages)
          mk sv).wroteOutput = true ∧
      (add_bookmarks_to_pdf bookmarks (Except.ok totalPages)
          mk sv).outlineIndices =
        (bookmarks.filter (validBookmark totalPages)).map
          (fun b => b.page - 1) ∧
      PyDict.get (add_bookmarks_to_pdf bookmarks (Except.ok totalPages)
          mk sv).dict "bookmarks_count" =
        some (PyVal.pyNat
          (bookmarks.filter (validBookmark totalPages)).length) ∧
      PyDict.get (add_bookmarks_to_pdf bookmarks (Except.ok totalPages)
          mk sv).dict "success" = some (PyVal.pyBool true)) := by
  have hvalid := filterBookmarks_eq totalPages bookmarks
  by_cases hemp : bookmarks.isEmpty
  · have hnil : bookmarks = [] := by
      cases bookmarks with
      | nil => rfl
      | cons a l => simp at hemp
    subst hnil
    refine ⟨?_, ?_, ?_⟩
    · intro idx hidx
      simp [add_bookmarks_to_pdf] at hidx
    · intro h
      simp [add_bookmarks_to_pdf, PyDict.get]
    · intro _ _ hne
      simp at hne
  · by_cases hv : filterBookmarks totalPages bookmarks = []
    · have hfil : bookmarks.filter (validBookmark totalPages) = [] := by
        rw [hvalid] at hv
        exact List.map_eq_nil.mp hv
      refine ⟨?_, ?_, ?_⟩
      · intro idx hidx
        simp [add_bookmarks_to_pdf, hemp, hv, List.isEmpty_iff] at hidx
      · intro _
        simp [add_bookmarks_to_pdf, hemp, hv, List.isEmpty_iff,
          PyDict.get]
      · intro _ _ hne
        exact absurd hfil hne
    · have hne : ¬ (filterBookmarks totalPages bookmarks).isEmpty = true := by
        cases hc : filterBookmarks totalPages bookmarks with
        | nil => exact absurd hc hv
        | cons a l => simp [hc]
      have hfil : bookmarks.filter (validBookmark totalPages) ≠ [] := by
        intro h
        rw [h] at hvalid
        exact hv (by simpa using hvalid)
      have hbounds : ∀ idx ∈ (filterBookmarks totalPages bookmarks).map
          (fun b => b.page - 1), 0 ≤ idx ∧ idx < (totalPages : Int) := by
        intro idx hidx
        rw [hvalid, List.map_map] at hidx
        rcases List.mem_map.mp hidx with ⟨bm, hbm, hidx'⟩
        have hpred := List.of_mem_filter hbm
        simp [validBookmark] at hpred
        rw [← hidx']
        simp only [Function.comp]
        constructor
        · omega
        · omega
      refine ⟨?_, ?_, ?_⟩
      · intro idx hidx
        apply hbounds
        cases mk with
        | error e =>
            simpa [add_bookmarks_to_pdf, hemp, hne] using hidx
        | ok u =>
            cases sv with
            | error e =>
                simpa [add_bookmarks_to_pdf, hemp, hne] using hidx
            | ok u' =>
                simpa [add_bookmarks_to_pdf, hemp, hne] using hidx
      · intro h
        exact absurd h hfil
      · intro hmk hsv _
        subst hmk
        subst hsv
        have hlen : (filterBookmarks totalPages bookmarks).length =
            (bookmarks.filter (validBookmark totalPages)).length := by
          rw [hvalid, List.length_map]
        refine ⟨?_, ?_, ?_, ?_⟩
        · simp [add_bookmarks_to_pdf, hemp, hne]
        · simp only [add_bookmarks_to_pdf, hemp, hne]
          simp [hvalid, List.map_map, Function.comp]
        · simp [add_bookmarks_to_pdf, hemp, hne, PyDict.get, hlen]
        · simp [add_bookmarks_to_pdf, hemp, hne, PyDict.get]

/-- Witness for C5: two valid records, one out-of-range record and one
empty-title record against a 3-page document. -/
theorem add_bookmarks_validation_witness :
    (∀ idx ∈ (add_bookmarks_to_pdf
        [⟨1, "intro"⟩, ⟨4, "oops"⟩, ⟨3, "end"⟩, ⟨2, "  "⟩]
        (Except.ok 3) (Except.ok ()) (Except.ok ())).outlineIndices,
      0 ≤ idx ∧ idx < (3 : Int)) ∧
    ((add_bookmarks_to_pdf
        [⟨1, "intro"⟩, ⟨4, "oops"⟩, ⟨3, "end"⟩, ⟨2, "  "⟩]
        (Except.ok 3) (Except.ok ()) (Except.ok ())).wroteOutput = true ∧
      (add_bookmarks_to_pdf
        [⟨1, "intro"⟩, ⟨4, "oops"⟩, ⟨3, "end"⟩, ⟨2, "  "⟩]
        (Except.ok 3) (Except.ok ()) (Except.ok ())).outlineIndices =
        (([⟨1, "intro"⟩, ⟨4, "oops"⟩, ⟨3, "end"⟩, ⟨2, "  "⟩] :
            List Bookmark).filter (validBookmark 3)).map
          (fun b => b.page - 1) ∧
      PyDict.get (add_bookmarks_to_pdf
        [⟨1, "intro"⟩, ⟨4, "oops"⟩, ⟨3, "end"⟩, ⟨2, "  "⟩]
        (Except.ok 3) (Except.ok ()) (Except.ok ())).dict
          "bookmarks_count" =
        some (PyVal.pyNat
          (([⟨1, "intro"⟩, ⟨4, "oops"⟩, ⟨3, "end"⟩, ⟨2, "  "⟩] :
              List Bookmark).filter (validBookmark 3)).length) ∧
      PyDict.get (add_bookmarks_to_pdf
        [⟨1, "intro"⟩, ⟨4, "oops"⟩, ⟨3, "end"⟩, ⟨2, "  "⟩]
        (Except.ok 3) (Except.ok ()) (Except.ok ())).dict "success" =
        some (PyVal.pyBool true)) :=
  ⟨(add_bookmarks_validation 3 _ _ _).1,
   (add_bookmarks_validation 3 _ _ _).2.2 rfl rfl (by decide)⟩

/-- Key lookup distributes over dict concatenation. -/
theorem PyDict.get_append (a b : PyDict) (k : String) :
    PyDict.get (a ++ b) k =
      match PyDict.get a k with
      | some v => some v
      | none => PyDict.get b k := by
  induction a with
  | nil => rfl
  | cons kv rest ih =>
      by_cases h : kv.1 = k
      · simp [PyDict.get, h]
      · simp [PyDict.get, h, ih]

/-- Every branch of `add_bookmarks_to_pdf` returns a dict whose first
binding is a boolean `success`. -/
theorem add_bookmarks_success_key (bookmarks : List Bookmark)
    (openOutcome : Except PyExn Nat)
    (mk sv : Except PyExn Unit) :
    ∃ b, PyDict.get (add_bookmarks_to_pdf bookmarks openOutcome
        mk sv).dict "success" = some (PyVal.pyBool b) := by
  by_cases hemp : bookmarks.isEmpty
  · exact ⟨false, by simp [add_bookmarks_to_pdf, hemp, PyDict.get]⟩
  · cases openOutcome with
    | error e => exact ⟨false, by simp [add_bookmarks_to_pdf, hemp, PyDict.get]⟩
    | ok totalPages =>
        by_cases hv : (filterBookmarks totalPages bookmarks).isEmpty
        · exact ⟨false, by simp [add_bookmarks_to_pdf, hemp, hv, PyDict.get]⟩
        · cases mk with
          | error e =>
              exact ⟨false, by simp [add_bookmarks_to_pdf, hemp, hv, PyDict.get]⟩
          | ok u =>
              cases sv with
              | error e =>
                  exact ⟨false, by simp [add_bookmarks_to_pdf, hemp, hv, PyDict.get]⟩
              | ok u' =>
                  exact ⟨true, by simp [add_bookmarks_to_pdf, hemp, hv, PyDict.get]⟩

/-- `add_bookmarks_to_pdf` returns no `file` binding — the batch loop
adds it afterwards. -/
theorem add_bookmarks_no_file_key (bookmarks : List Bookmark)
    (openOutcome : Except PyExn Nat)
    (mk sv : Except PyExn Unit) :
    PyDict.get (add_bookmarks_to_pdf bookmarks openOutcome
        mk sv).dict "file" = none := by
  by_cases hemp : bookmarks.isEmpty
  · simp [add_bookmarks_to_pdf, hemp, PyDict.get]
  · cases openOutcome with
    | error e => simp [add_bookmarks_to_pdf, hemp, PyDict.get]
    | ok totalPages =>
        by_cases hv : (filterBookmarks totalPages bookmarks).isEmpty
        · simp [add_bookmarks_to_pdf, hemp, hv, PyDict.get]
        · cases mk with
          | error e => simp [add_bookmarks_to_pdf, hemp, hv, PyDict.get]
          | ok u =>
              cases sv with
              | error e => simp [add_bookmarks_to_pdf, hemp, hv, PyDict.get]
              | ok u' => simp [add_bookmarks_to_pdf, hemp, hv, PyDict.get]

/-- Each per-file result records that file and carries a boolean
`success`. -/
theorem bookmarkFileResult_keys (useCommon : Bool) (common : List Bookmark)
    (outputFor : String → String) (en : BatchBookmarkInput) :
    PyDict.get (bookmarkFileResult useCommon common outputFor en) "file" =
      some (PyVal.pyStr en.file) ∧
    ∃ b, PyDict.get (bookmarkFileResult useCommon common outputFor en)
        "success" = some (PyVal.pyBool b) := by
  cases hx : en.outerExn with
  | some e =>
      constructor
      · simp [bookmarkFileResult, hx, PyDict.get]
      · exact ⟨false, by simp [bookmarkFileResult, hx, PyDict.get]⟩
  | none =>
      constructor
      · simp only [bookmarkFileResult, hx]
        rw [PyDict.get_append]
        rw [add_bookmarks_no_file_key]
        simp [PyDict.get]
      · obtain ⟨b, hb⟩ := add_bookmarks_success_key
          (if useCommon ∧ ¬common.isEmpty then common else en.bookmarks)
          en.openOutcome en.makedirsOutcome en.saveOutcome
        refine ⟨b, ?_⟩
        simp only [bookmarkFileResult, hx]
        rw [PyDict.get_append]
        rw [hb]

/-- C8: batch operations isolate per-file failures.  Without
cancellation, `batch_add_bookmarks_to_pdfs` returns exactly one result
entry per input file in input order — entry `k` is the per-file result of
input `k` alone, naming that file and carrying its boolean success — and
`batch_split_pdf` emits exactly one `file_finished` event per file in
order, each the image of that file's own outcome, whether or not earlier
files failed. -/
theorem batch_per_file_isolation (useCommon : Bool) (common : List Bookmark)
    (outputFor : String → String) (entries : List BatchBookmarkInput)
    (n : Nat) (outcomes : Nat → Except PyExn PyDict) :
    (batch_add_bookmarks_to_pdfs useCommon common outputFor
        entries).length = entries.length ∧
    (∀ (k : Nat) (en : BatchBookmarkInput), entries[k]? = some en →
      (batch_add_bookmarks_to_pdfs useCommon common outputFor
          entries)[k]? =
        some (bookmarkFileResult useCommon common outputFor en) ∧
      PyDict.get (bookmarkFileResult useCommon common outputFor en)
          "file" = some (PyVal.pyStr en.file) ∧
      ∃ b, PyDict.get (bookmarkFileResult useCommon common outputFor en)
          "success" = some (PyVal.pyBool b)) ∧
    batch_split_pdf n outcomes (fun _ => true) =
      (List.range n).map (fun i => (i, splitFileEvent (outcomes i))) := by
  refine ⟨by simp [batch_add_bookmarks_to_pdfs], ?_, ?_⟩
  · intro k en hk
    refine ⟨?_, (bookmarkFileResult_keys useCommon common outputFor en).1,
      (bookmarkFileResult_keys useCommon common outputFor en).2⟩
    simp [batch_add_bookmarks_to_pdfs, hk]
  · unfold batch_split_pdf
    have hall : ∀ idxs : List Nat,
        batchSplitLoop outcomes (fun _ => true) idxs =
          idxs.map (fun i => (i, splitFileEvent (outcomes i))) := by
      intro idxs
      induction idxs with
      | nil => rfl
      | cons i rest ih => simp [batchSplitLoop, ih]
    exact hall (List.range n)

/-- Witness for C8: two files, the first failing, the second fine. -/
theorem batch_per_file_isolation_witness :
    (batch_add_bookmarks_to_pdfs false []
        (fun f => f ++ "[已加书签].pdf")
        [{ file := "a.pdf", bookmarks := [⟨1, "t"⟩],
           openOutcome := Except.error (PyExn.exn "broken header"),
           makedirsOutcome := Except.ok (), saveOutcome := Except.ok (),
           outerExn := none },
         { file := "b.pdf", bookmarks := [⟨1, "t"⟩],
           openOutcome := Except.ok 2,
           makedirsOutcome := Except.ok (), saveOutcome := Except.ok (),
           outerExn := none }]).length = 2 ∧
    ((batch_add_bookmarks_to_pdfs false []
        (fun f => f ++ "[已加书签].pdf")
        [{ file := "a.pdf", bookmarks := [⟨1, "t"⟩],
           openOutcome := Except.error (PyExn.exn "broken header"),
           makedirsOutcome := Except.ok (), saveOutcome := Except.ok (),
           outerExn := none },
         { file := "b.pdf", bookmarks := [⟨1, "t"⟩],
           openOutcome := Except.ok 2,
           makedirsOutcome := Except.ok (), saveOutcome := Except.ok (),
           outerExn := none }])[1]? =
      some (bookmarkFileResult false [] (fun f => f ++ "[已加书签].pdf")
        { file := "b.pdf", bookmarks := [⟨1, "t"⟩],
          openOutcome := Except.ok 2,
          makedirsOutcome := Except.ok (), saveOutcome := Except.ok (),
          outerExn := none })) :=
  ⟨(batch_per_file_isolation false [] (fun f => f ++ "[已加书签].pdf") _ 0
      (fun _ => Except.ok [])).1,
   ((batch_per_file_isolation false [] (fun f => f ++ "[已加书签].pdf") _ 0
      (fun _ => Except.ok [])).2.1 1 _ rfl).1⟩

/-- The batch loop over consecutive indices stops at the first false
flag check: exactly the files before it are processed. -/
theorem batchSplitLoop_range' (outcomes : Nat → Except PyExn PyDict)
    (running : Nat → Bool) (k : Nat)
    (hk : running k = false) (hbefore : ∀ j < k, running j = true) :
    ∀ (len s : Nat), s ≤ k →
      batchSplitLoop outcomes running (List.range' s len) =
        (List.range' s (min (k - s) len)).map
          (fun i => (i, splitFileEvent (outcomes i))) := by
  intro len
  induction len with
  | zero => intro s hs; simp [batchSplitLoop]
  | succ l ih =>
      intro s hs
      by_cases hsk : s = k
      · subst hsk
        rw [List.range'_succ]
        simp [batchSplitLoop, hk]
      · have hslt : s < k := lt_of_le_of_ne hs hsk
        have hrs : running s = true := hbefore s hslt
        rw [List.range'_succ]
        have hmin : min (k - s) (l + 1) = min (k - (s + 1)) l + 1 := by
          omega
        rw [hmin, List.range'_succ]
        simp only [batchSplitLoop]
        rw [if_neg (by simp [hrs])]
        rw [ih (s + 1) hslt]
        simp

/-- When the retry loop stops on the cooperative flag, the attempt index
at which it stopped is exactly where the flag was observed false, every
earlier check returned true, and (the attempt count being the number of
attempts started) nothing at or after the false observation started. -/
theorem pageAttemptLoopN_interrupted (i : Nat)
    (outcomes : Nat → AttemptOutcome) (running : Nat → Bool) (fuel : Nat) :
    ∀ (a : Nat) (c : String) (s : List Nat),
      (pageAttemptLoopN i outcomes running fuel a c s).interrupted = true →
      running
          (pageAttemptLoopN i outcomes running fuel a c s).attemptsMade =
        false ∧
      ∀ j, a ≤ j →
        j < (pageAttemptLoopN i outcomes running fuel a c s).attemptsMade →
        running j = true := by
  induction fuel with
  | zero => intro a c s h; simp [pageAttemptLoopN] at h
  | succ f ih =>
      intro a c s
      rw [pageAttemptLoopN]
      by_cases hr : running a = false
      · rw [if_pos hr]
        intro _
        refine ⟨hr, ?_⟩
        intro j hj1 hj2
        simp at hj2
        omega
      · rw [if_neg hr]
        have hrt : running a = true := by
          cases hb : running a
          · exact absurd hb hr
          · rfl
        cases ho : outcomes a with
        | content str =>
            simp only []
            by_cases hs : str = ""
            · subst hs
              rw [if_pos rfl]
              cases f with
              | zero => intro h; simp at h
              | succ g =>
                  intro h
                  obtain ⟨h1, h2⟩ := ih (a + 1) "" (openaiRetryDelay :: s) h
                  refine ⟨h1, ?_⟩
                  intro j hj1 hj2
                  by_cases hja : j = a
                  · subst hja; exact hrt
                  · exact h2 j (by omega) hj2
            · rw [if_neg hs]
              intro h
              simp at h
        | httpErr e =>
            simp only []
            cases f with
            | zero => intro h; simp at h
            | succ g =>
                intro h
                obtain ⟨h1, h2⟩ := ih (a + 1) c (openaiRetryDelay :: s) h
                refine ⟨h1, ?_⟩
                intro j hj1 hj2
                by_cases hja : j = a
                · subst hja; exact hrt
                · exact h2 j (by omega) hj2
        | otherErr e =>
            intro h
            simp at h

/-- C7: cancellation is a cooperative boolean flag checked between file
and page iterations.  (1) In `batch_split_pdf`, once the flag check at
file index `k` returns false, the batch loop breaks there: exactly the
files before `k` are processed and no later file iteration begins.
(2) In the OCR retry loop, a run that stops on the flag stopped at the
exact attempt index where the flag was observed false — every earlier
check passed and no further retry attempt was started.  (3) In the OCR
page loop, a false flag at a page-level check means that page (and every
later one) never starts. -/
theorem cooperative_cancellation (n k : Nat)
    (outcomes : Nat → Except PyExn PyDict) (runningB : Nat → Bool)
    (hk : runningB k = false) (hbefore : ∀ j < k, runningB j = true)
    (po : Nat → Nat → AttemptOutcome) (runningO : Nat → Bool)
    (pageIdx : Nat) :
    batch_split_pdf n outcomes runningB =
      (List.range (min k n)).map
        (fun i => (i, splitFileEvent (outcomes i))) ∧
    ((pageAttemptLoopN pageIdx (po pageIdx) runningO openaiMaxRetries 0 ""
        []).interrupted = true →
      runningO (pageAttemptLoopN pageIdx (po pageIdx) runningO
          openaiMaxRetries 0 "" []).attemptsMade = false ∧
      ∀ j < (pageAttemptLoopN pageIdx (po pageIdx) runningO
          openaiMaxRetries 0 "" []).attemptsMade, runningO j = true) ∧
    (∀ (t p : Nat) (rest : List Nat), runningO t = false →
      ocrPagesLoop po runningO (p :: rest) t = ([], true)) := by
  refine ⟨?_, ?_, ?_⟩
  · unfold batch_split_pdf
    rw [List.range_eq_range']
    rw [batchSplitLoop_range' outcomes runningB k hk hbefore n 0
      (Nat.zero_le k)]
    rw [List.range_eq_range']
    congr 2
  · intro h
    obtain ⟨h1, h2⟩ := pageAttemptLoopN_interrupted pageIdx (po pageIdx)
      runningO openaiMaxRetries 0 "" [] h
    exact ⟨h1, fun j hj => h2 j (Nat.zero_le j) hj⟩
  · intro t p rest ht
    simp [ocrPagesLoop, ht]

/-- Witness for C7: a flag that turns false after the first check. -/
theorem cooperative_cancellation_witness :
    batch_split_pdf 2 (fun _ => Except.ok [("success", PyVal.pyBool true)])
        (fun j => decide (j < 1)) =
      (List.range (min 1 2)).map
        (fun i => (i, splitFileEvent
          ((fun _ => Except.ok [("success", PyVal.pyBool true)]) i))) ∧
    ((fun j => decide (j < 1))
        (pageAttemptLoopN 0 ((fun _ k => AttemptOutcome.content "") 0)
          (fun j => decide (j < 1)) openaiMaxRetries 0 "" []).attemptsMade =
      false ∧
      ∀ j < (pageAttemptLoopN 0 ((fun _ k => AttemptOutcome.content "") 0)
          (fun j => decide (j < 1)) openaiMaxRetries 0 "" []).attemptsMade,
        (fun j => decide (j < 1)) j = true) ∧
    ocrPagesLoop (fun _ k => AttemptOutcome.content "")
        (fun j => decide (j < 1)) (0 :: []) 5 = ([], true) :=
  ⟨(cooperative_cancellation 2 1 _ (fun j => decide (j < 1)) (by decide)
      (by decide) (fun _ k => AttemptOutcome.content "")
      (fun j => decide (j < 1)) 0).1,
   (cooperative_cancellation 2 1
      (fun _ => Except.ok [("success", PyVal.pyBool true)])
      (fun j => decide (j < 1)) (by decide) (by decide)
      (fun _ k => AttemptOutcome.content "") (fun j => decide (j < 1))
      0).2.1 (by decide),
   (cooperative_cancellation 2 1
      (fun _ => Except.ok [("success", PyVal.pyBool true)])
      (fun j => decide (j < 1)) (by decide) (by decide)
      (fun _ k => AttemptOutcome.content "") (fun j => decide (j < 1))
      0).2.2 5 0 [] (by decide)⟩

/-- C10: `load_configs` never raises — every exception site is matched
by a handler that returns a profile.  When the config file is missing it
returns the `.env` migration result (an empty profile when no `.env`
exists); when the file exists but cannot be read or parsed it falls
back to the newest backup, returning the empty profile when there is no
backup or the newest backup itself is unusable. -/
theorem load_configs_fallback (s : CfgDirState) :
    (s.configFile = none →
      load_configs s = migrate_from_old_config s ∧
      (s.env = none → load_configs s = ConfigProfile.empty)) ∧
    (∀ e, s.configFile = some (Except.error e) →
      load_configs s = restore_from_backup s ∧
      (s.backups = [] → load_configs s = ConfigProfile.empty) ∧
      (∀ nm p, (sortBackups s.backups).getLast? = some (nm, Except.ok p) →
        load_configs s = p) ∧
      (∀ nm e2, (sortBackups s.backups).getLast? =
          some (nm, Except.error e2) →
        load_configs s = ConfigProfile.empty)) ∧
    (∀ p, s.configFile = some (Except.ok p) → load_configs s = p) := by
  refine ⟨?_, ?_, ?_⟩
  · intro h
    constructor
    · simp [load_configs, h]
    · intro henv
      simp [load_configs, h, migrate_from_old_config, henv]
  · intro e h
    refine ⟨by simp [load_configs, h], ?_, ?_, ?_⟩
    · intro hb
      simp [load_configs, h, restore_from_backup, sortBackups, hb,
        List.insertionSort]
    · intro nm p hlast
      simp [load_configs, h, restore_from_backup, hlast]
    · intro nm e2 hlast
      simp [load_configs, h, restore_from_backup, hlast]
  · intro p h
    simp [load_configs, h]

/-- Witness for C10: a corrupt config file with one good backup, and a
missing config file with no `.env`. -/
theorem load_configs_fallback_witness :
    (load_configs
      { configFile := some (Except.error "json decode error"),
        env := none,
        backups := [("ocr_configs_backup_20240101_000000.json",
          Except.ok { configs := [⟨"c1", "a", true⟩],
                      active_config_id := some "c1",
                      default_config_id := some "c1" })],
        freshId := "u1", renameOutcome := Except.ok (),
        migratedExists := false } =
      { configs := [⟨"c1", "a", true⟩], active_config_id := some "c1",
        default_config_id := some "c1" }) ∧
    (load_configs
      { configFile := none, env := none, backups := [], freshId := "u1",
        renameOutcome := Except.ok (), migratedExists := false } =
      ConfigProfile.empty) :=
  ⟨((load_configs_fallback _).2.1 "json decode error" rfl).2.2.1
      "ocr_configs_backup_20240101_000000.json" _ rfl,
   ((load_configs_fallback _).1 rfl).2 rfl⟩

/-- C6: every core file operation returns, on every path — success,
handled failure, or raised exception — a dictionary with a boolean
`success` and a string `message`, and never propagates an exception:
each modelled function is a total match on its body in which every
`.error` case is mapped to a failure dict by `handle_exception` or the
function's own `except` clauses. -/
theorem core_ops_result_contract
    (input_paths : List String) (output_path : String)
    (openPath : String → Except PyExn Unit) (saveM : Except PyExn Unit)
    (mk1 : Except PyExn Unit) (open1 : Except PyExn Nat)
    (pp1 : Nat → Except PyExn Unit)
    (preset : String) (openO : Except PyExn Nat)
    (imgs saves : Except PyExn Unit) (szi szo : Except PyExn Nat)
    (runG : Except PyExn Unit) (szi2 szo2 : Except PyExn Nat)
    (mk2 : Except PyExn Unit) (open2 : Except PyExn Nat)
    (pp2 : Nat → Except PyExn Unit)
    (bms : List Bookmark) (openB : Except PyExn Nat)
    (mkB svB : Except PyExn Unit) :
    hasResultContract (merge_pdfs input_paths output_path openPath saveM) ∧
    hasResultContract (optimize_pdf preset openO imgs saves szi szo) ∧
    hasResultContract (split_pdf mk1 open1 pp1) ∧
    hasResultContract (convert_to_curves_with_ghostscript runG szi2 szo2) ∧
    hasResultContract (convert_pdf_to_images mk2 open2 pp2) ∧
    hasResultContract (add_bookmarks_to_pdf bms openB mkB svB).dict := by
  refine ⟨?_, ?_, ?_, ?_, ?_, ?_⟩
  · unfold merge_pdfs merge_pdfs_body
    by_cases hemp : input_paths.isEmpty <;>
      [skip; cases seqAll (input_paths.map openPath)] <;>
      [skip; skip; cases saveM] <;>
      simp [hemp, hasResultContract, handle_exception, PyDict.get]
  · unfold optimize_pdf optimize_pdf_body
    cases lookupPreset preset OPTIMIZATION_PRESETS <;>
      [skip; cases openO] <;> [skip; skip; cases imgs] <;>
      [skip; skip; skip; cases saves] <;>
      [skip; skip; skip; skip; cases szi] <;>
      [skip; skip; skip; skip; skip; cases szo] <;>
      simp [hasResultContract, PyDict.get]
  · unfold split_pdf split_pdf_body
    cases mk1 with
    | error e => simp [hasResultContract, handle_exception, PyDict.get]
    | ok u =>
        cases open1 with
        | error e => simp [hasResultContract, handle_exception, PyDict.get]
        | ok pageCount =>
            cases hseq : seqAll ((List.range pageCount).map pp1) <;>
              simp [hseq, hasResultContract, handle_exception, PyDict.get]
  · unfold convert_to_curves_with_ghostscript convert_to_curves_body
    cases runG with
    | error e =>
        cases e <;> simp [hasResultContract, PyDict.get]
    | ok u =>
        cases szi2 with
        | error e => cases e <;> simp [hasResultContract, PyDict.get]
        | ok a =>
            cases szo2 with
            | error e => cases e <;> simp [hasResultContract, PyDict.get]
            | ok b => simp [hasResultContract, PyDict.get]
  · unfold convert_pdf_to_images convert_pdf_to_images_body
    cases mk2 with
    | error e => simp [hasResultContract, handle_exception, PyDict.get]
    | ok u =>
        cases open2 with
        | error e => simp [hasResultContract, handle_exception, PyDict.get]
        | ok pageCount =>
            cases hseq : seqAll ((List.range pageCount).map pp2) <;>
              simp [hseq, hasResultContract, handle_exception, PyDict.get]
  · by_cases hemp : bms.isEmpty
    · simp [add_bookmarks_to_pdf, hemp, hasResultContract, PyDict.get]
    · cases openB with
      | error e =>
          simp [add_bookmarks_to_pdf, hemp, hasResultContract, PyDict.get]
      | ok totalPages =>
          by_cases hv : (filterBookmarks totalPages bms).isEmpty
          · simp [add_bookmarks_to_pdf, hemp, hv, hasResultContract,
              PyDict.get]
          · cases mkB <;> [skip; cases svB] <;>
              simp [add_bookmarks_to_pdf, hemp, hv, hasResultContract,
                PyDict.get]
